import Mathlib

/-!
# ChronoChat contact panel

A shallow embedding of `src/contactpanel.cpp` (class `ContactPanel`) and of
`src/endorse-certificate.h` (class `EndorseCertificate`).

The panel is a Qt dialog whose slots and callbacks run one at a time on the GUI
thread.  Each member function is embedded as a function from the panel's state
to its next state.  The objects the panel owns or talks to (the NDN `Wrapper`, the
contact manager and its storage, the Qt widgets and dialogs) are part of that state
as records of what the panel asked of them.  What those objects answer (parsing of
names, signature verification, the contact manager's list) is not code of the two
source files and is taken as a parameter, the structure `Env`.

Conventions.
* `std::string` and `QString` are both `String`.  A conversion that carries the length
  of the text (`fromStdString`, `toStdString`, passing a `std::string`) is the identity.
  A conversion that goes through a C string (`c_str()`, `constData()`) ends at the first
  NUL character; it is the function `cString`.  The encodings (`fromUtf8`, `toUtf8`) are
  the identity on text.
* `Ptr<T>` is modelled by the object it points to, and `Option T` where the source
  can hold or receive a null pointer.  Sharing between `m_currentSelectedContact`
  and the elements of `m_contactList` is not represented.
* A member function returns `Option` when the source can leave it through an
  exception or through undefined behaviour (`vector::at` out of range, indexing past
  the end, dereferencing a null pointer); `none` stands for that.
* The loop counters `int count` and `int i` are natural numbers: a contact list is
  far shorter than `2^31`.
* A call into the NDN library, Qt or the contact manager is taken to return; an
  exception raised inside one of them is outside the model.
* Logging (`_LOG_DEBUG`) is omitted.
-/

namespace ChronoChat

/-! ## Data exchanged with the NDN library -/

/-- An NDN name, the sequence of its components. -/
abbrev Name := List String

/-- A sequence of bytes. -/
abbrev Blob := List Nat

/-- The text that a C string holds: what `c_str()` or `constData()` gives to a reader of
`const char*`, the characters before the first NUL character. -/
def cString (text : String) : String :=
  String.mk (text.toList.takeWhile (fun c => c ≠ Char.ofNat 0))

/-- The call `name.getPrefix(len)`: the first `len` components. -/
def Name.getPrefix (name : Name) (len : Nat) : Name :=
  name.take len

/-- A Data packet, as far as the panel reads it: its name and its content. -/
structure Data where
  name : Name
  content : String
deriving DecidableEq, Repr

/-- Modelled from the spec: the class `ProfileData`, whose header `profile-data.h` is not
among the sources.  The spec calls it the user profile an endorse certificate is extended
with; it is kept as the identity it describes and its typed entries. -/
structure ProfileData where
  identity : Name
  entries : List (String × String)
deriving DecidableEq, Repr

/-- The class `EndorseCertificate` of `endorse-certificate.h`: the four protected
members, and the Data packet of the base class `ndn::Certificate`. -/
structure EndorseCertificate where
  certificate : Data
  m_keyName : Name
  m_signer : Name
  m_profileData : ProfileData
  m_endorseList : List String
deriving DecidableEq, Repr

/-- The member `getSigner() const`: the value returned, and the certificate after
the call. -/
def EndorseCertificate.getSigner (c : EndorseCertificate) : Name × EndorseCertificate :=
  (c.m_signer, c)

/-- The member `getProfileData() const`: the value returned, and the certificate
after the call. -/
def EndorseCertificate.getProfileData (c : EndorseCertificate) :
    ProfileData × EndorseCertificate :=
  (c.m_profileData, c)

/-- The member `getEndorseList() const`: the value returned, and the certificate
after the call. -/
def EndorseCertificate.getEndorseList (c : EndorseCertificate) :
    List String × EndorseCertificate :=
  (c.m_endorseList, c)

/-- The member `getPublicKeyName() const`: the value returned, and the certificate
after the call. -/
def EndorseCertificate.getPublicKeyName (c : EndorseCertificate) :
    Name × EndorseCertificate :=
  (c.m_keyName, c)

/-- An `ndn::security::IdentityCertificate`, as far as the panel reads it. -/
structure IdentityCertificate where
  publicKeyName : Name
  publicKeyInfo : Blob
deriving DecidableEq, Repr

/-- Modelled from the spec: the class `ChronosInvitation`, whose header is not among the
sources.  The spec calls an invitation a signed Interest naming the chatroom and the
inviter; the record has one field for each accessor the panel calls (`getInterestName`,
`getChatroom`, `getInviterPrefix`, `getInviterNameSpace`, `getInviterCertificateName`,
`getSignedBlob`, `getSignatureBits`). -/
structure ChronosInvitation where
  interestName : Name
  chatroom : Name
  inviterPrefix : Name
  inviterNameSpace : Name
  inviterCertificateName : Name
  signedBlob : Blob
  signatureBits : Blob
deriving DecidableEq, Repr

/-- Modelled from the spec: the class `ContactItem`, whose header is not among the
sources.  The spec calls an introducer a contact flagged as authorized to vouch for other
namespaces; the record has that flag and one field for each other accessor the panel calls
(`getNameSpace`, `getAlias`, `getName`, `getInstitution`, `getSelfEndorseCertificate`). -/
structure ContactItem where
  m_nameSpace : Name
  m_alias : String
  m_name : String
  m_institution : String
  m_isIntroducer : Bool
  m_selfEndorseCertificate : EndorseCertificate
deriving DecidableEq, Repr

/-- Modelled from the spec: the member `ContactItem::setIsIntroducer`, which sets the flag
that `isIntroducer()` returns. -/
def ContactItem.setIsIntroducer (c : ContactItem) (b : Bool) : ContactItem :=
  { c with m_isIntroducer := b }

/-- What the panel does not compute itself: the answers of the NDN library, of Qt
and of the contact manager. -/
structure Env where
  /-- The constructor `Name(uri)`. -/
  nameOfUri : String → Name
  /-- The call `name.toUri()`. -/
  toUri : Name → String
  /-- The call `component.toUri()` on one component of a name. -/
  componentToUri : String → String
  /-- The conversion `QString::fromStdString(text).trimmed().toUtf8().constData()`: the
  text without its leading and trailing whitespace. -/
  trimmed : String → String
  /-- The call `PolicyManager::verifySignature(signedBlob, signatureBits, publicKey)`. -/
  verifySignature : Blob → Blob → Blob → Bool
  /-- The constructor `IdentityCertificate(data)`. -/
  certificateOfData : Data → IdentityCertificate
  /-- The calls `Data::decodeFromWire(content)` and `EndorseCertificate(data)`. -/
  endorseCertificateOfData : Data → EndorseCertificate
  /-- The constructor `ChronosInvitation(interestName)`. -/
  invitationOfName : Name → ChronosInvitation
  /-- The call `m_contactManager->getContactItemList()`. -/
  getContactItemList : List ContactItem
  /-- The call `m_contactManager->getContact(nameSpace)`; `none` is the null pointer. -/
  getContact : Name → Option ContactItem
  /-- The call `m_keychain->getDefaultIdentity()`. -/
  getDefaultIdentity : Name

/-! ## Interests and closures -/

/-- The callbacks of the panel that receive a Data packet, with the arguments
bound by `boost::bind`. -/
inductive DataCallback where
  | onLocalPrefixVerified
  | onInvitationCertVerified (invitation : ChronosInvitation)
  | onUnverified
  | onDnsEndorseeVerified (count : Nat)
  | onDnsEndorseeUnverified (count : Nat)
deriving DecidableEq, Repr

/-- The callbacks of the panel that receive a timeout, with the arguments bound by
`boost::bind`. -/
inductive TimeoutCallback where
  | onLocalPrefixTimeout
  | onTimeout
  | onDnsEndorseeTimeout (count : Nat)
deriving DecidableEq, Repr

/-- A `Closure(dataCallback, timeoutCallback, unverifiedCallback)`. -/
structure Closure where
  dataCallback : DataCallback
  timeoutCallback : TimeoutCallback
  unverifiedCallback : DataCallback
deriving DecidableEq, Repr

/-- The child selector of an Interest. -/
inductive ChildSelector where
  | childLeft
  | childRight
deriving DecidableEq, Repr

/-- An Interest as the panel builds it. -/
structure Interest where
  name : Name
  childSelector : Option ChildSelector
  interestLifetime : Option Nat
deriving DecidableEq, Repr

/-- The constructor `Interest(name)`. -/
def Interest.ofName (name : Name) : Interest :=
  { name := name, childSelector := none, interestLifetime := none }

/-- The `Wrapper` behind `m_handler`, seen from the panel: the Interests sent with
their closures, the prefixes that have an Interest filter (the callback is always
`onInvitation`), and the Data published. -/
structure Wrapper where
  sentInterests : List (Interest × Closure)
  interestFilters : List Name
  publishedData : List (Name × String)
deriving DecidableEq, Repr

/-- The call `m_handler->sendInterest(interest, closure)`. -/
def Wrapper.sendInterest (h : Wrapper) (interest : Interest) (closure : Closure) : Wrapper :=
  { h with sentInterests := h.sentInterests ++ [(interest, closure)] }

/-- The call `m_handler->setInterestFilter(name, callback)`: the table of filters is
keyed by name. -/
def Wrapper.setInterestFilter (h : Wrapper) (name : Name) : Wrapper :=
  { h with interestFilters :=
      if name ∈ h.interestFilters then h.interestFilters else h.interestFilters ++ [name] }

/-- The call `m_handler->clearInterestFilter(name)`. -/
def Wrapper.clearInterestFilter (h : Wrapper) (name : Name) : Wrapper :=
  { h with interestFilters := h.interestFilters.filter (fun n => n ≠ name) }

/-- The call `m_handler->publishDataByIdentity(name, content)`. -/
def Wrapper.publishDataByIdentity (h : Wrapper) (name : Name) (content : String) : Wrapper :=
  { h with publishedData := h.publishedData ++ [(name, content)] }

/-! ## The objects the panel owns -/

/-- A `ChatDialog`, seen from the panel: the arguments of its constructor and the
calls the panel made on it. -/
structure ChatDialog where
  chatroomName : Name
  localPrefix : Name
  defaultIdentity : Name
  nickName : String
  /-- The sixth constructor argument, `none` when the panel leaves it out. -/
  trial : Option Bool
  chatDataRules : List (Name × IdentityCertificate × Bool)
  trustAnchors : List EndorseCertificate
  sentInvitations : List (Option ContactItem × Bool)
  visible : Bool
deriving DecidableEq, Repr

/-- The map `m_chatDialogs`, a `std::map<Name, ChatDialog*>`: a list of entries with
distinct keys. -/
abbrev ChatDialogs := List (Name × ChatDialog)

/-- The call `m_chatDialogs.find(key)`; `none` is the iterator `end()`. -/
def ChatDialogs.find (m : ChatDialogs) (key : Name) : Option (Name × ChatDialog) :=
  List.find? (fun e => decide (e.1 = key)) m

/-- The call `m_chatDialogs.insert(pair(key, dialog))`: an existing entry stays. -/
def ChatDialogs.insert (m : ChatDialogs) (key : Name) (dialog : ChatDialog) : ChatDialogs :=
  match m.find key with
  | some _ => m
  | none => m ++ [(key, dialog)]

/-- The call `m_chatDialogs.erase(it)` for the iterator of `key`. -/
def ChatDialogs.erase (m : ChatDialogs) (key : Name) : ChatDialogs :=
  List.filter (fun e => decide (e.1 ≠ key)) m

/-- A `QSqlTableModel`, seen from the panel: its settings, how often `select` and
`submitAll` were called, the records inserted (row and value of `contact_namespace`) and
the rows removed, in the order of the calls. -/
structure QSqlTableModel where
  manualSubmit : Bool
  table : String
  filter : String
  headerData : List (Nat × String)
  selectCalls : Nat
  submitAllCalls : Nat
  insertedRecords : List (Nat × String)
  removedRows : List Nat
deriving DecidableEq, Repr

/-- The sequence `setEditStrategy(OnManualSubmit); setTable(table); setFilter(filter);
select(); setHeaderData(0, ..); setHeaderData(1, ..); ...` that the panel runs on a
table model. -/
def QSqlTableModel.load (m : QSqlTableModel) (table filter : String)
    (headers : List (Nat × String)) : QSqlTableModel :=
  { m with manualSubmit := true, table := table, filter := filter,
           selectCalls := m.selectCalls + 1, headerData := headers }

/-- A `QTableView` of the form: whether it is enabled, has a model and is shown, and the
columns the panel passed to `setColumnHidden(column, true)`, to `resizeColumnToContents` and
to `setItemDelegateForColumn`, in the order of the calls. -/
structure QTableView where
  enabled : Bool
  hasModel : Bool
  hiddenColumns : List Nat
  resizedColumns : List Nat
  delegateColumns : List Nat
  visible : Bool
deriving DecidableEq, Repr

/-- The sequence `setModel(model); setColumnHidden(0, true); setColumnHidden(1, true);
show()` that the panel runs on `ui->trustScopeList`. -/
def QTableView.showTrustScope (v : QTableView) : QTableView :=
  { v with hasModel := true, hiddenColumns := v.hiddenColumns ++ [0, 1], visible := true }

/-- The widgets of `ui` that the panel writes. -/
structure Ui where
  contactListHasModel : Bool
  isIntroducerChecked : Bool
  addScopeEnabled : Bool
  deleteScopeEnabled : Bool
  trustScopeList : QTableView
  endorseList : QTableView
  nameData : String
  nameSpaceData : String
  institutionData : String
deriving DecidableEq, Repr

/-- The `InvitationDialog`: the arguments of the last `setInvitation`. -/
structure InvitationDialog where
  invitation : Option (String × ChronosInvitation × IdentityCertificate)
  visible : Bool
deriving DecidableEq, Repr

/-- The `SettingDialog`: the arguments of the last `setIdentity`. -/
structure SettingDialog where
  identity : Option (String × String)
  visible : Bool
deriving DecidableEq, Repr

/-- The `StartChatDialog`: the arguments of the last `setInvitee`. -/
structure StartChatDialog where
  invitee : Option (String × String)
  visible : Bool
deriving DecidableEq, Repr

/-- The `SetAliasDialog`: the argument of the last `setTargetIdentity`. -/
structure SetAliasDialog where
  targetIdentity : Option String
  visible : Bool
deriving DecidableEq, Repr

/-- The contact manager and its storage, seen from the panel: the calls the panel
made that change them, in order. -/
structure ContactManager where
  publishEndorsedDataInDns : List Name
  updateEndorseCertificate : List (Name × Name)
  updateCollectEndorse : List EndorseCertificate
  updateIsIntroducer : List (Name × Bool)
deriving DecidableEq, Repr

/-- The state of a `ContactPanel`. -/
structure ContactPanel where
  ui : Ui
  /-- The string list held by `m_contactListModel`. -/
  m_contactListModel : List String
  m_startChatDialog : StartChatDialog
  m_invitationDialog : InvitationDialog
  m_settingDialog : SettingDialog
  m_setAliasDialog : SetAliasDialog
  profileEditorVisible : Bool
  addContactPanelVisible : Bool
  m_trustScopeModel : QSqlTableModel
  m_endorseDataModel : QSqlTableModel
  m_contactManager : ContactManager
  m_contactList : List ContactItem
  m_chatDialogs : ChatDialogs
  /-- The trust anchors given to `m_panelPolicyManager`. -/
  m_panelPolicyManager : List EndorseCertificate
  m_handler : Wrapper
  m_defaultIdentity : Name
  m_nickName : String
  m_localPrefix : Name
  m_inviteListenPrefix : Name
  m_collectStatus : List Bool
  m_currentSelectedContact : Option ContactItem
  /-- How many times the signal `newInvitationReady` was emitted. -/
  newInvitationReady : Nat
  /-- How many times `triggered()` of `m_menuInvite` is connected to `openStartChatDialog`. -/
  menuInviteConnections : Nat
  /-- How many times `triggered()` of `m_menuAlias` is connected to `openSetAliasDialog`. -/
  menuAliasConnections : Nat
deriving DecidableEq, Repr

/-! ## The random string -/

/-- The alphabet `chars` of `getRandomString`. -/
def chars : String := "qwertyuiopasdfghjklzxcvbnmQWERTYUIOPASDFGHJKLZXCVBNM0123456789"

/-- A draw from `uniform_int_distribution<>(lo, hi)`: a value between `lo` and `hi`
obtained from one raw value of the device. -/
def uniformIntDistribution (lo hi raw : Nat) : Nat :=
  lo + raw % (hi - lo + 1)

/-- The loop of `getRandomString`, from iteration `i`; `rng i` is the raw value the
device gives in iteration `i`. -/
def getRandomString.loop (rng : Nat → Nat) (i : Nat) (randStr : String) : String :=
  if i < 10 then
    getRandomString.loop rng (i + 1)
      (randStr.push (chars.toList.getD (uniformIntDistribution 0 (chars.length - 1) (rng i)) 'q'))
  else randStr
termination_by 10 - i

/-- The member `ContactPanel::getRandomString`. -/
def getRandomString (rng : Nat → Nat) : String :=
  getRandomString.loop rng 0 ""

/-! ## The member functions of `ContactPanel` -/

/-- The loop of `refreshContactList` from index `i`: appends to `contactNameList`, for
each contact, `QString::fromUtf8(getAlias().c_str())`, the alias read as a C string. -/
def refreshContactList.loop (contactList : List ContactItem) (i : Nat)
    (contactNameList : List String) : List String :=
  if h : i < contactList.length then
    refreshContactList.loop contactList (i + 1)
      (contactNameList ++ [cString contactList[i].m_alias])
  else contactNameList
termination_by contactList.length - i

/-- The slot `ContactPanel::refreshContactList`. -/
def refreshContactList (E : Env) (p : ContactPanel) : ContactPanel :=
  let contactList := E.getContactItemList
  { p with m_contactList := contactList,
           m_contactListModel := refreshContactList.loop contactList 0 [] }

/-- The member `ContactPanel::setKeychain`: a fresh policy manager that receives the
self-endorse certificate of every contact as a trust anchor. -/
def setKeychain (p : ContactPanel) : ContactPanel :=
  { p with m_panelPolicyManager :=
      p.m_contactList.foldl (fun anchors c => anchors ++ [c.m_selfEndorseCertificate]) [] }

/-- The member `ContactPanel::setLocalPrefix`. -/
def setLocalPrefix (E : Env) (p : ContactPanel) : ContactPanel :=
  let interest : Interest :=
    { Interest.ofName (E.nameOfUri "/local/ndn/prefix") with
        childSelector := some ChildSelector.childRight }
  let closure : Closure :=
    { dataCallback := DataCallback.onLocalPrefixVerified,
      timeoutCallback := TimeoutCallback.onLocalPrefixTimeout,
      unverifiedCallback := DataCallback.onLocalPrefixVerified }
  { p with m_handler := p.m_handler.sendInterest interest closure }

/-- The callback `ContactPanel::onLocalPrefixVerified`. -/
def onLocalPrefixVerified (E : Env) (rng : Nat → Nat) (p : ContactPanel) (data : Data) :
    ContactPanel :=
  let originPrefix := data.content
  let localName := E.trimmed originPrefix
  let _randomSuffix := getRandomString rng
  { p with m_localPrefix := E.nameOfUri localName }

/-- The callback `ContactPanel::onLocalPrefixTimeout`. -/
def onLocalPrefixTimeout (E : Env) (rng : Nat → Nat) (p : ContactPanel)
    (_closure : Closure) (_interest : Interest) : ContactPanel :=
  let _randomSuffix := getRandomString rng
  { p with m_localPrefix := E.nameOfUri "/private/local" }

/-- The member `ContactPanel::setInvitationListener`. -/
def setInvitationListener (E : Env) (p : ContactPanel) : ContactPanel :=
  let listenName := E.nameOfUri "/ndn/broadcast/chronos/invitation" ++ p.m_defaultIdentity
  { p with m_inviteListenPrefix := listenName,
           m_handler := p.m_handler.setInterestFilter listenName }

/-- The callback `ContactPanel::onInvitation`. -/
def onInvitation (E : Env) (p : ContactPanel) (interest : Interest) : ContactPanel :=
  let invitation := E.invitationOfName interest.name
  let chatroomName := E.nameOfUri "/ndn/broadcast/chronos" ++ invitation.chatroom
  match p.m_chatDialogs.find chatroomName with
  | some _ => p
  | none =>
    let newInterest := Interest.ofName invitation.inviterCertificateName
    let closure : Closure :=
      { dataCallback := DataCallback.onInvitationCertVerified invitation,
        timeoutCallback := TimeoutCallback.onTimeout,
        unverifiedCallback := DataCallback.onUnverified }
    { p with m_handler := p.m_handler.sendInterest newInterest closure }

/-- The slot `ContactPanel::openInvitationDialog`. -/
def openInvitationDialog (p : ContactPanel) : ContactPanel :=
  { p with m_invitationDialog := { p.m_invitationDialog with visible := true } }

/-- The loop of `popChatInvitation`: the iterator `it` is the rest of the contact
list; the result is the iterator and the alias when the loop is left. -/
def popChatInvitation.loop (inviterNameSpace : Name) :
    List ContactItem → String → List ContactItem × String
  | [], theAlias => ([], theAlias)
  | c :: rest, theAlias =>
    popChatInvitation.loop inviterNameSpace rest
      (if c.m_nameSpace = inviterNameSpace then c.m_alias else theAlias)

/-- The member `ContactPanel::popChatInvitation`.  The signal `newInvitationReady` is
connected to `openInvitationDialog` by the constructor, so the slot runs when the
signal is emitted. -/
def popChatInvitation (p : ContactPanel) (invitation : ChronosInvitation)
    (inviterNameSpace : Name) (certificate : IdentityCertificate) : ContactPanel :=
  let (it, theAlias) := popChatInvitation.loop inviterNameSpace p.m_contactList ""
  if it ≠ [] then p
  else
    let p1 := { p with m_invitationDialog :=
                  { p.m_invitationDialog with
                      invitation := some (theAlias, invitation, certificate) } }
    openInvitationDialog { p1 with newInvitationReady := p1.newInvitationReady + 1 }

/-- The callback `ContactPanel::onInvitationCertVerified`.  The length
`keyName.size() - 1` is computed in `size_t`. -/
def onInvitationCertVerified (E : Env) (p : ContactPanel) (data : Data)
    (invitation : ChronosInvitation) : ContactPanel :=
  let certificate := E.certificateOfData data
  if E.verifySignature invitation.signedBlob invitation.signatureBits
      certificate.publicKeyInfo then
    let keyName := certificate.publicKeyName
    let inviterNameSpace := keyName.getPrefix ((keyName.length + 2 ^ 64 - 1) % 2 ^ 64)
    popChatInvitation p invitation inviterNameSpace certificate
  else p

/-- The callback `ContactPanel::onUnverified`. -/
def onUnverified (p : ContactPanel) (_data : Data) : ContactPanel := p

/-- The callback `ContactPanel::onTimeout`. -/
def onTimeout (p : ContactPanel) (_closure : Closure) (_interest : Interest) : ContactPanel := p

/-- The loop of `collectEndorsement`: one Interest for each remaining contact, with
the running `count` bound into the three callbacks. -/
def collectEndorsement.loop (defaultIdentity : Name) :
    List ContactItem → Nat → Wrapper → Wrapper
  | [], _, handler => handler
  | c :: rest, count, handler =>
    let interestName := c.m_nameSpace ++ ["DNS"] ++ defaultIdentity ++ ["ENDORSEE"]
    let interest : Interest :=
      { Interest.ofName interestName with
          childSelector := some ChildSelector.childRight, interestLifetime := some 1 }
    let closure : Closure :=
      { dataCallback := DataCallback.onDnsEndorseeVerified count,
        timeoutCallback := TimeoutCallback.onDnsEndorseeTimeout count,
        unverifiedCallback := DataCallback.onDnsEndorseeUnverified count }
    collectEndorsement.loop defaultIdentity rest (count + 1)
      (handler.sendInterest interest closure)

/-- The member `ContactPanel::collectEndorsement`. -/
def collectEndorsement (p : ContactPanel) : ContactPanel :=
  { p with m_collectStatus := List.replicate p.m_contactList.length false,
           m_handler := collectEndorsement.loop p.m_defaultIdentity p.m_contactList 0
                          p.m_handler }

/-- The scan of `updateCollectStatus`: `false` when it meets an entry that is
`false` (the early `return`), `true` when it reaches the end. -/
def updateCollectStatus.loop : List Bool → Bool
  | [] => true
  | b :: rest => if b = false then false else updateCollectStatus.loop rest

/-- The member `ContactPanel::updateCollectStatus`; `at(count)` throws when `count`
is not an index of `m_collectStatus`. -/
def updateCollectStatus (p : ContactPanel) (count : Nat) : Option ContactPanel :=
  if count < p.m_collectStatus.length then
    let p1 := { p with m_collectStatus := p.m_collectStatus.set count true }
    if updateCollectStatus.loop p1.m_collectStatus then
      some { p1 with m_contactManager :=
               { p1.m_contactManager with
                   publishEndorsedDataInDns :=
                     p1.m_contactManager.publishEndorsedDataInDns ++ [p1.m_defaultIdentity] } }
    else some p1
  else none

/-- The callback `ContactPanel::onDnsEndorseeVerified`. -/
def onDnsEndorseeVerified (E : Env) (p : ContactPanel) (data : Data) (count : Nat) :
    Option ContactPanel :=
  let endorseCertificate := E.endorseCertificateOfData data
  let p1 := { p with m_contactManager :=
                { p.m_contactManager with
                    updateCollectEndorse :=
                      p.m_contactManager.updateCollectEndorse ++ [endorseCertificate] } }
  updateCollectStatus p1 count

/-- The callback `ContactPanel::onDnsEndorseeTimeout`. -/
def onDnsEndorseeTimeout (p : ContactPanel) (_closure : Closure) (_interest : Interest)
    (count : Nat) : Option ContactPanel :=
  updateCollectStatus p count

/-- The callback `ContactPanel::onDnsEndorseeUnverified`. -/
def onDnsEndorseeUnverified (p : ContactPanel) (_data : Data) (count : Nat) :
    Option ContactPanel :=
  updateCollectStatus p count

/-- The slot `ContactPanel::updateDefaultIdentity`. -/
def updateDefaultIdentity (E : Env) (p : ContactPanel) (identity nickName : String) :
    ContactPanel :=
  let p1 := { p with m_defaultIdentity := E.nameOfUri identity }
  let p2 := { p1 with m_nickName := nickName }
  let p3 := { p2 with m_handler := p2.m_handler.clearInterestFilter p2.m_inviteListenPrefix }
  collectEndorsement (setInvitationListener E p3)

/-- The slot `ContactPanel::startChatroom` (the inviter's side).  The two names are built
from `toUtf8().constData()`.  `getContact` may give a null pointer, which is handed to
`sendInvitation` as it is. -/
def startChatroom (E : Env) (p : ContactPanel) (chatroom invitee : String)
    (isIntroducer : Bool) : ContactPanel :=
  let chatroomName := E.nameOfUri (cString chatroom)
  let chatDialog : ChatDialog :=
    { chatroomName := chatroomName, localPrefix := p.m_localPrefix,
      defaultIdentity := p.m_defaultIdentity, nickName := p.m_nickName, trial := none,
      chatDataRules := [], trustAnchors := [], sentInvitations := [], visible := false }
  let inviteeNamespace := E.nameOfUri (cString invitee)
  let inviteeItem := E.getContact inviteeNamespace
  let chatDialog := { chatDialog with sentInvitations := [(inviteeItem, isIntroducer)] }
  let chatDialog := { chatDialog with visible := true }
  { p with m_chatDialogs := p.m_chatDialogs.insert chatroomName chatDialog }

/-- The member `ContactPanel::startChatroom2` (the invitee's side); `none` when
`getContact` gives a null pointer, which the function dereferences. -/
def startChatroom2 (E : Env) (p : ContactPanel) (invitation : ChronosInvitation)
    (identityCertificate : IdentityCertificate) : Option ContactPanel :=
  let chatroomName := E.nameOfUri "/ndn/broadcast/chronos" ++ invitation.chatroom
  let chatDialog : ChatDialog :=
    { chatroomName := chatroomName, localPrefix := p.m_localPrefix,
      defaultIdentity := p.m_defaultIdentity, nickName := p.m_nickName, trial := some true,
      chatDataRules := [], trustAnchors := [], sentInvitations := [], visible := false }
  let chatDialog :=
    { chatDialog with
        chatDataRules := [(invitation.inviterPrefix, identityCertificate, true)] }
  match E.getContact invitation.inviterNameSpace with
  | none => none
  | some inviterItem =>
    let chatDialog :=
      { chatDialog with trustAnchors := [inviterItem.m_selfEndorseCertificate] }
    let chatDialog := { chatDialog with visible := true }
    some { p with m_chatDialogs := p.m_chatDialogs.insert chatroomName chatDialog }

/-- The slot `ContactPanel::acceptInvitation`. -/
def acceptInvitation (E : Env) (p : ContactPanel) (invitation : ChronosInvitation)
    (identityCertificate : IdentityCertificate) : Option ContactPanel :=
  let localUri := E.toUri p.m_localPrefix
  let p1 := { p with m_handler :=
                p.m_handler.publishDataByIdentity invitation.interestName localUri }
  startChatroom2 E p1 invitation identityCertificate

/-- The slot `ContactPanel::rejectInvitation`. -/
def rejectInvitation (p : ContactPanel) (invitation : ChronosInvitation) : ContactPanel :=
  let empty := ""
  { p with m_handler := p.m_handler.publishDataByIdentity invitation.interestName empty }

/-- The slot `ContactPanel::removeChatDialog`; `none` when the name is not a key of
the map, where the function deletes through an uninitialised pointer. -/
def removeChatDialog (p : ContactPanel) (chatroomName : Name) : Option ContactPanel :=
  match p.m_chatDialogs.find chatroomName with
  | some _ => some { p with m_chatDialogs := p.m_chatDialogs.erase chatroomName }
  | none => none

/-- The value of `Qt::Checked`. -/
def Qt.Checked : Int := 2

/-- The block that `isIntroducerChanged` and `updateSelection` run in both of their
branches: build the filter on the contact's namespace, load `m_trustScopeModel` from the
table `TrustScope` with `filter.c_str()`, and show it in `ui->trustScopeList`. -/
def selectTrustScope (E : Env) (p : ContactPanel) (contact : ContactItem) : ContactPanel :=
  let filter := "contact_namespace = '" ++ E.toUri contact.m_nameSpace ++ "'"
  { p with
      m_trustScopeModel :=
        p.m_trustScopeModel.load "TrustScope" (cString filter)
          [(0, "ID"), (1, "Contact"), (2, "TrustScope")],
      ui := { p.ui with trustScopeList := p.ui.trustScopeList.showTrustScope } }

/-- The slot `ContactPanel::isIntroducerChanged`; `none` when no contact is selected
(`m_currentSelectedContact` is null). -/
def isIntroducerChanged (E : Env) (p : ContactPanel) (state : Int) : Option ContactPanel :=
  match p.m_currentSelectedContact with
  | none => none
  | some contact =>
    let p1 :=
      if state = Qt.Checked then
        let q := { p with ui := { p.ui with addScopeEnabled := true } }
        let q := { q with ui := { q.ui with deleteScopeEnabled := true } }
        let q := { q with ui := { q.ui with
                     trustScopeList := { q.ui.trustScopeList with enabled := true } } }
        let q := selectTrustScope E q contact
        { q with m_currentSelectedContact := some (contact.setIsIntroducer true) }
      else
        let q := { p with ui := { p.ui with addScopeEnabled := false } }
        let q := { q with ui := { q.ui with deleteScopeEnabled := false } }
        let q := selectTrustScope E q contact
        let q := { q with ui := { q.ui with
                     trustScopeList := { q.ui.trustScopeList with enabled := false } } }
        { q with m_currentSelectedContact := some (contact.setIsIntroducer false) }
    match p1.m_currentSelectedContact with
    | none => none
    | some current =>
      some { p1 with m_contactManager :=
               { p1.m_contactManager with
                   updateIsIntroducer :=
                     p1.m_contactManager.updateIsIntroducer ++
                       [(current.m_nameSpace, current.m_isIntroducer)] } }

/-- The loop of `updateSelection` from index `i`: the first index whose contact has
the alias, or the size of the list. -/
def updateSelection.loop (aliasText : String) (contactList : List ContactItem) (i : Nat) : Nat :=
  if h : i < contactList.length then
    if aliasText = contactList[i].m_alias then i
    else updateSelection.loop aliasText contactList (i + 1)
  else i
termination_by contactList.length - i

/-- The slot `ContactPanel::updateSelection`; `selected` lists the rows of the selected
indexes.  `none` when `selected` is empty (`items.first()` on an empty list) and when the
index found is past the end of `m_contactList`.  The signal `stateChanged` that the check
box sends when `setChecked` changes it reaches the panel as a separate call of
`isIntroducerChanged`. -/
def updateSelection (E : Env) (p : ContactPanel) (selected : List Nat) : Option ContactPanel :=
  match selected with
  | [] => none
  | first :: _ =>
    let text := p.m_contactListModel.getD first ""
    let i := updateSelection.loop text p.m_contactList 0
    match p.m_contactList[i]? with
    | none => none
    | some contact =>
      let p1 := { p with m_currentSelectedContact := some contact }
      let p1 := { p1 with ui := { p1.ui with
                    nameData := contact.m_name,
                    nameSpaceData := E.toUri contact.m_nameSpace,
                    institutionData := contact.m_institution } }
      let p2 :=
        if contact.m_isIntroducer then
          let q := { p1 with ui := { p1.ui with isIntroducerChecked := true } }
          let q := { q with ui := { q.ui with addScopeEnabled := true } }
          let q := { q with ui := { q.ui with deleteScopeEnabled := true } }
          let q := { q with ui := { q.ui with
                       trustScopeList := { q.ui.trustScopeList with enabled := true } } }
          selectTrustScope E q contact
        else
          let q := { p1 with ui := { p1.ui with isIntroducerChecked := false } }
          let q := { q with ui := { q.ui with addScopeEnabled := false } }
          let q := { q with ui := { q.ui with deleteScopeEnabled := false } }
          let q := selectTrustScope E q contact
          { q with ui := { q.ui with
              trustScopeList := { q.ui.trustScopeList with enabled := false } } }
      let filter := "profile_identity = '" ++ E.toUri contact.m_nameSpace ++ "'"
      some { p2 with
        m_endorseDataModel :=
          p2.m_endorseDataModel.load "ContactProfile" (cString filter)
            [(0, "Identity"), (1, "Type"), (2, "Value"), (3, "Endorse")],
        ui := { p2.ui with endorseList :=
                  { p2.ui.endorseList with
                      hasModel := true,
                      hiddenColumns := p2.ui.endorseList.hiddenColumns ++ [0],
                      resizedColumns := p2.ui.endorseList.resizedColumns ++ [1, 2],
                      delegateColumns := p2.ui.endorseList.delegateColumns ++ [3],
                      visible := true } } }

/-- The slot `ContactPanel::openProfileEditor`. -/
def openProfileEditor (p : ContactPanel) : ContactPanel :=
  { p with profileEditorVisible := true }

/-- The slot `ContactPanel::openAddContactPanel`. -/
def openAddContactPanel (p : ContactPanel) : ContactPanel :=
  { p with addContactPanelVisible := true }

/-- The slot `ContactPanel::openSetAliasDialog`; `none` when no contact is selected. -/
def openSetAliasDialog (E : Env) (p : ContactPanel) : Option ContactPanel :=
  match p.m_currentSelectedContact with
  | none => none
  | some contact =>
    some { p with m_setAliasDialog :=
             { targetIdentity := some (E.toUri contact.m_nameSpace), visible := true } }

/-- The slot `ContactPanel::openSettingDialog`. -/
def openSettingDialog (E : Env) (p : ContactPanel) : ContactPanel :=
  { p with m_settingDialog :=
      { identity := some (E.toUri p.m_defaultIdentity, p.m_nickName), visible := true } }

/-- The slot `ContactPanel::openStartChatDialog`; `none` when no contact is selected. -/
def openStartChatDialog (E : Env) (rng : Nat → Nat) (p : ContactPanel) : Option ContactPanel :=
  let chatroom := E.nameOfUri "/ndn/broadcast/chronos" ++ ["chatroom-" ++ getRandomString rng]
  match p.m_currentSelectedContact with
  | none => none
  | some contact =>
    some { p with m_startChatDialog :=
             { invitee := some (E.toUri contact.m_nameSpace, E.toUri chatroom),
               visible := true } }

/-- The slot `ContactPanel::showContextMenu`: each call connects the two menu actions to
their slots once more; the menu itself is local to the call. -/
def showContextMenu (p : ContactPanel) : ContactPanel :=
  let p1 := { p with menuInviteConnections := p.menuInviteConnections + 1 }
  { p1 with menuAliasConnections := p1.menuAliasConnections + 1 }

/-- The slot `ContactPanel::addScopeClicked`; `rowCount` is what `m_trustScopeModel->rowCount()`
returns, and `none` is the case that no contact is selected. -/
def addScopeClicked (E : Env) (p : ContactPanel) (rowCount : Nat) : Option ContactPanel :=
  match p.m_currentSelectedContact with
  | none => none
  | some contact =>
    some { p with m_trustScopeModel :=
             { p.m_trustScopeModel with
                 insertedRecords :=
                   p.m_trustScopeModel.insertedRecords ++
                     [(rowCount, cString (E.toUri contact.m_nameSpace))] } }

/-- The loop of `deleteScopeClicked`: removes the rows of `indexList` from the last index
to the first. -/
def deleteScopeClicked.loop (indexList : List Nat) (model : QSqlTableModel) : QSqlTableModel :=
  { model with removedRows := model.removedRows ++ indexList.reverse }

/-- The slot `ContactPanel::deleteScopeClicked`; `indexList` holds the rows of the indexes
selected in `ui->trustScopeList`. -/
def deleteScopeClicked (p : ContactPanel) (indexList : List Nat) : ContactPanel :=
  let model := deleteScopeClicked.loop indexList p.m_trustScopeModel
  { p with m_trustScopeModel := { model with submitAllCalls := model.submitAllCalls + 1 } }

/-- The slot `ContactPanel::saveScopeClicked`. -/
def saveScopeClicked (p : ContactPanel) : ContactPanel :=
  { p with m_trustScopeModel :=
      { p.m_trustScopeModel with submitAllCalls := p.m_trustScopeModel.submitAllCalls + 1 } }

/-- The slot `ContactPanel::endorseButtonClicked`; `none` when no contact is selected. -/
def endorseButtonClicked (p : ContactPanel) : Option ContactPanel :=
  let p1 := { p with m_endorseDataModel :=
                { p.m_endorseDataModel with
                    submitAllCalls := p.m_endorseDataModel.submitAllCalls + 1 } }
  match p1.m_currentSelectedContact with
  | none => none
  | some contact =>
    some { p1 with m_contactManager :=
             { p1.m_contactManager with
                 updateEndorseCertificate :=
                   p1.m_contactManager.updateEndorseCertificate ++
                     [(contact.m_nameSpace, p1.m_defaultIdentity)] } }

/-- The call `name.get(index)`; a negative index counts from the end, and `none` is an
index outside the name. -/
def Name.get (name : Name) (index : Int) : Option String :=
  if index < 0 then name.reverse[(-index - 1).toNat]? else name[index.toNat]?

/-- The members of a panel before the body of the constructor runs: the dialogs and
models just created, the default-constructed names and containers, and no contact
manager call made yet.  `ui0` is the form after `setupUi`. -/
def ContactPanel.fresh (ui0 : Ui) : ContactPanel :=
  { ui := ui0,
    m_contactListModel := [],
    m_startChatDialog := { invitee := none, visible := false },
    m_invitationDialog := { invitation := none, visible := false },
    m_settingDialog := { identity := none, visible := false },
    m_setAliasDialog := { targetIdentity := none, visible := false },
    profileEditorVisible := false,
    addContactPanelVisible := false,
    m_trustScopeModel :=
      { manualSubmit := false, table := "", filter := "", headerData := [],
        selectCalls := 0, submitAllCalls := 0, insertedRecords := [], removedRows := [] },
    m_endorseDataModel :=
      { manualSubmit := false, table := "", filter := "", headerData := [],
        selectCalls := 0, submitAllCalls := 0, insertedRecords := [], removedRows := [] },
    m_contactManager :=
      { publishEndorsedDataInDns := [], updateEndorseCertificate := [],
        updateCollectEndorse := [], updateIsIntroducer := [] },
    m_contactList := [],
    m_chatDialogs := [],
    m_panelPolicyManager := [],
    m_handler := { sentInterests := [], interestFilters := [], publishedData := [] },
    m_defaultIdentity := [],
    m_nickName := "",
    m_localPrefix := [],
    m_inviteListenPrefix := [],
    m_collectStatus := [],
    m_currentSelectedContact := none,
    newInvitationReady := 0,
    menuInviteConnections := 0,
    menuAliasConnections := 0 }

/-- The constructor `ContactPanel::ContactPanel`; `none` when the default identity has
no component, where `get(-1)` has nothing to return. -/
def ContactPanel.construct (E : Env) (ui0 : Ui) : Option ContactPanel :=
  let p := ContactPanel.fresh ui0
  let p := refreshContactList E p
  let p := setKeychain p
  let p := { p with m_defaultIdentity := E.getDefaultIdentity }
  match p.m_defaultIdentity.get (-1) with
  | none => none
  | some last =>
    let p := { p with m_nickName := E.componentToUri last }
    let p := { p with m_settingDialog :=
                 { p.m_settingDialog with
                     identity := some (E.toUri p.m_defaultIdentity, p.m_nickName) } }
    let p := setLocalPrefix E p
    let p := setInvitationListener E p
    let p := collectEndorsement p
    some { p with ui := { p.ui with contactListHasModel := true } }

/-! ## Runs of the panel -/

/-- The completion of one endorsement request: the callback of its closure that the
`Wrapper` calls, with the index bound into it. -/
inductive EndorseeReport where
  | verified (data : Data) (count : Nat)
  | timeout (closure : Closure) (interest : Interest) (count : Nat)
  | unverified (data : Data) (count : Nat)
deriving DecidableEq, Repr

/-- The index a report carries. -/
def EndorseeReport.count : EndorseeReport → Nat
  | EndorseeReport.verified _ count => count
  | EndorseeReport.timeout _ _ count => count
  | EndorseeReport.unverified _ count => count

/-- The panel after one report. -/
def EndorseeReport.deliver (E : Env) (p : ContactPanel) : EndorseeReport → Option ContactPanel
  | EndorseeReport.verified data count => onDnsEndorseeVerified E p data count
  | EndorseeReport.timeout closure interest count =>
    onDnsEndorseeTimeout p closure interest count
  | EndorseeReport.unverified data count => onDnsEndorseeUnverified p data count

/-- The panel after a sequence of reports, delivered one after the other. -/
def deliverReports (E : Env) (p : ContactPanel) : List EndorseeReport → Option ContactPanel
  | [] => some p
  | r :: rest =>
    match r.deliver E p with
    | none => none
    | some p1 => deliverReports E p1 rest

/-- How many times `publishEndorsedDataInDns` has been called so far. -/
def publishCalls (p : ContactPanel) : Nat :=
  p.m_contactManager.publishEndorsedDataInDns.length

/-- The call of a data callback of a closure, as `boost::bind` built it, on a Data
packet. -/
def callDataCallback (E : Env) (rng : Nat → Nat) (p : ContactPanel) :
    DataCallback → Data → Option ContactPanel
  | DataCallback.onLocalPrefixVerified, data => some (onLocalPrefixVerified E rng p data)
  | DataCallback.onInvitationCertVerified invitation, data =>
    some (onInvitationCertVerified E p data invitation)
  | DataCallback.onUnverified, data => some (onUnverified p data)
  | DataCallback.onDnsEndorseeVerified count, data => onDnsEndorseeVerified E p data count
  | DataCallback.onDnsEndorseeUnverified count, data => onDnsEndorseeUnverified p data count

/-- The call of a timeout callback of a closure, as `boost::bind` built it. -/
def callTimeoutCallback (E : Env) (rng : Nat → Nat) (p : ContactPanel) :
    TimeoutCallback → Closure → Interest → Option ContactPanel
  | TimeoutCallback.onLocalPrefixTimeout, closure, interest =>
    some (onLocalPrefixTimeout E rng p closure interest)
  | TimeoutCallback.onTimeout, closure, interest => some (onTimeout p closure interest)
  | TimeoutCallback.onDnsEndorseeTimeout count, closure, interest =>
    onDnsEndorseeTimeout p closure interest count

/-- How a request ends: Data whose signature verified, Data whose signature did not
verify, or a timeout. -/
inductive Outcome where
  | verified (data : Data)
  | unverified (data : Data)
  | timeout
deriving DecidableEq, Repr

/-- The completion of the request `interest` sent with `closure`: the `Wrapper` calls the
first callback of the closure on verified Data, the third on unverified Data and the second
on a timeout. -/
def Closure.complete (E : Env) (rng : Nat → Nat) (p : ContactPanel) (closure : Closure)
    (interest : Interest) : Outcome → Option ContactPanel
  | Outcome.verified data => callDataCallback E rng p closure.dataCallback data
  | Outcome.unverified data => callDataCallback E rng p closure.unverifiedCallback data
  | Outcome.timeout => callTimeoutCallback E rng p closure.timeoutCallback closure interest

/-- The calls that reach a panel once it is constructed: its slots and its callbacks,
with their arguments. -/
inductive Event where
  | refreshContactList
  | onLocalPrefixVerified (rng : Nat → Nat) (data : Data)
  | onLocalPrefixTimeout (rng : Nat → Nat) (closure : Closure) (interest : Interest)
  | onInvitation (interest : Interest)
  | onInvitationCertVerified (data : Data) (invitation : ChronosInvitation)
  | onUnverified (data : Data)
  | onTimeout (closure : Closure) (interest : Interest)
  | onDnsEndorsee (report : EndorseeReport)
  | updateSelection (selected : List Nat)
  | updateDefaultIdentity (identity nickName : String)
  | openProfileEditor
  | openAddContactPanel
  | openInvitationDialog
  | openSetAliasDialog
  | openSettingDialog
  | openStartChatDialog (rng : Nat → Nat)
  | startChatroom (chatroom invitee : String) (isIntroducer : Bool)
  | acceptInvitation (invitation : ChronosInvitation) (certificate : IdentityCertificate)
  | rejectInvitation (invitation : ChronosInvitation)
  | isIntroducerChanged (state : Int)
  | showContextMenu
  | addScopeClicked (rowCount : Nat)
  | deleteScopeClicked (indexList : List Nat)
  | saveScopeClicked
  | endorseButtonClicked
  | removeChatDialog (chatroomName : Name)

/-- The panel after one call; `none` when the call does not return. -/
def runEvent (E : Env) (p : ContactPanel) : Event → Option ContactPanel
  | Event.refreshContactList => some (refreshContactList E p)
  | Event.onLocalPrefixVerified rng data => some (onLocalPrefixVerified E rng p data)
  | Event.onLocalPrefixTimeout rng closure interest =>
    some (onLocalPrefixTimeout E rng p closure interest)
  | Event.onInvitation interest => some (onInvitation E p interest)
  | Event.onInvitationCertVerified data invitation =>
    some (onInvitationCertVerified E p data invitation)
  | Event.onUnverified data => some (onUnverified p data)
  | Event.onTimeout closure interest => some (onTimeout p closure interest)
  | Event.onDnsEndorsee report => report.deliver E p
  | Event.updateSelection selected => updateSelection E p selected
  | Event.updateDefaultIdentity identity nickName =>
    some (updateDefaultIdentity E p identity nickName)
  | Event.openProfileEditor => some (openProfileEditor p)
  | Event.openAddContactPanel => some (openAddContactPanel p)
  | Event.openInvitationDialog => some (openInvitationDialog p)
  | Event.openSetAliasDialog => openSetAliasDialog E p
  | Event.openSettingDialog => some (openSettingDialog E p)
  | Event.openStartChatDialog rng => openStartChatDialog E rng p
  | Event.startChatroom chatroom invitee isIntroducer =>
    some (startChatroom E p chatroom invitee isIntroducer)
  | Event.acceptInvitation invitation certificate =>
    acceptInvitation E p invitation certificate
  | Event.rejectInvitation invitation => some (rejectInvitation p invitation)
  | Event.isIntroducerChanged state => isIntroducerChanged E p state
  | Event.showContextMenu => some (showContextMenu p)
  | Event.addScopeClicked rowCount => addScopeClicked E p rowCount
  | Event.deleteScopeClicked indexList => some (deleteScopeClicked p indexList)
  | Event.saveScopeClicked => some (saveScopeClicked p)
  | Event.endorseButtonClicked => endorseButtonClicked p
  | Event.removeChatDialog chatroomName => removeChatDialog p chatroomName

/-- The states a panel can be in: the state the constructor leaves, and every state that
a call which returns leads to.  The answers of the contact manager may differ from call
to call; the constructor `Name(uri)` is the same function throughout. -/
inductive Reachable (E : Env) : ContactPanel → Prop where
  | construct (ui0 : Ui) (p : ContactPanel) :
      ContactPanel.construct E ui0 = some p → Reachable E p
  | run (E1 : Env) (p : ContactPanel) (e : Event) (p1 : ContactPanel) :
      E1.nameOfUri = E.nameOfUri → Reachable E p → runEvent E1 p e = some p1 → Reachable E p1

/-- The members that the invitation listener reads and writes: the listen prefix, the
default identity and the table of Interest filters. -/
def listenerState (p : ContactPanel) : Name × Name × List Name :=
  (p.m_inviteListenPrefix, p.m_defaultIdentity, p.m_handler.interestFilters)

/-! ## A small panel on which the theorems are instantiated -/

/-- A certificate with the given key name and no profile entry. -/
def exampleCertificate (keyName : Name) : EndorseCertificate :=
  { certificate := { name := keyName, content := "" },
    m_keyName := keyName, m_signer := keyName,
    m_profileData := { identity := keyName, entries := [] },
    m_endorseList := [] }

/-- The contact `/ndn/ucla/alice`, an introducer. -/
def alice : ContactItem :=
  { m_nameSpace := ["ndn", "ucla", "alice"], m_alias := "Alice", m_name := "Alice A.",
    m_institution := "UCLA", m_isIntroducer := true,
    m_selfEndorseCertificate := exampleCertificate ["ndn", "ucla", "alice", "ksk-1"] }

/-- The contact `/ndn/ucla/bob`, not an introducer. -/
def bob : ContactItem :=
  { m_nameSpace := ["ndn", "ucla", "bob"], m_alias := "Bob", m_name := "Bob B.",
    m_institution := "UCLA", m_isIntroducer := false,
    m_selfEndorseCertificate := exampleCertificate ["ndn", "ucla", "bob", "ksk-1"] }

/-- An invitation to the chatroom `lunch` whose inviter is `inviter`. -/
def exampleInvitation (inviter : Name) : ChronosInvitation :=
  { interestName := ["ndn", "broadcast", "chronos", "invitation", "lunch"],
    chatroom := ["lunch"],
    inviterPrefix := ["ndn", "ucla"],
    inviterNameSpace := inviter,
    inviterCertificateName := inviter ++ ["KEY", "ksk-1", "ID-CERT"],
    signedBlob := [1, 2, 3],
    signatureBits := [4, 5] }

/-- An environment whose contact manager knows `alice` and `bob`, whose names have one
component for each of the URIs the panel uses, and whose default identity is
`/ndn/ucla/carol`. -/
def exampleEnv : Env :=
  { nameOfUri := fun uri =>
      if uri = "/ndn/broadcast/chronos" then ["ndn", "broadcast", "chronos"]
      else if uri = "/ndn/broadcast/chronos/invitation" then
        ["ndn", "broadcast", "chronos", "invitation"]
      else if uri = "/private/local" then ["private", "local"]
      else if uri = "/local/ndn/prefix" then ["local", "ndn", "prefix"]
      else [uri],
    toUri := fun name => name.foldl (fun uri component => uri ++ "/" ++ component) "",
    componentToUri := fun component => component,
    trimmed := fun text => text,
    verifySignature := fun signedBlob signatureBits _ => decide (signatureBits.length < signedBlob.length),
    certificateOfData := fun data => { publicKeyName := data.name, publicKeyInfo := [] },
    endorseCertificateOfData := fun data => exampleCertificate data.name,
    invitationOfName := fun name => exampleInvitation (name.drop 5),
    getContactItemList := [alice, bob],
    getContact := fun nameSpace =>
      if nameSpace = alice.m_nameSpace then some alice
      else if nameSpace = bob.m_nameSpace then some bob
      else none,
    getDefaultIdentity := ["ndn", "ucla", "carol"] }

/-- A form with every widget enabled and nothing selected. -/
def exampleUi : Ui :=
  { contactListHasModel := false, isIntroducerChecked := false,
    addScopeEnabled := true, deleteScopeEnabled := true,
    trustScopeList :=
      { enabled := true, hasModel := false, hiddenColumns := [], resizedColumns := [],
        delegateColumns := [], visible := false },
    endorseList :=
      { enabled := true, hasModel := false, hiddenColumns := [], resizedColumns := [],
        delegateColumns := [], visible := false },
    nameData := "", nameSpaceData := "", institutionData := "" }

/-- A panel with the contacts `alice` and `bob`, in which `bob` is selected. -/
def examplePanel : ContactPanel :=
  { ContactPanel.fresh exampleUi with
      m_contactList := [alice, bob],
      m_contactListModel := ["Alice", "Bob"],
      m_defaultIdentity := ["ndn", "ucla", "carol"],
      m_nickName := "carol",
      m_currentSelectedContact := some bob }

/-- The two endorsement requests of the example panel complete in the order: the request
for `bob` times out, then the request for `alice` brings verified Data. -/
def exampleReports : List EndorseeReport :=
  [EndorseeReport.timeout
      { dataCallback := DataCallback.onDnsEndorseeVerified 1,
        timeoutCallback := TimeoutCallback.onDnsEndorseeTimeout 1,
        unverifiedCallback := DataCallback.onDnsEndorseeUnverified 1 }
      (Interest.ofName ["ndn", "ucla", "bob", "DNS", "ndn", "ucla", "carol", "ENDORSEE"]) 1,
   EndorseeReport.verified
      { name := ["ndn", "ucla", "alice", "DNS", "ndn", "ucla", "carol", "ENDORSEE"],
        content := "" } 0]

/-- The identity certificate of the key `ksk-1` of `owner`. -/
def exampleIdentityCertificate (owner : Name) : IdentityCertificate :=
  { publicKeyName := owner ++ ["ksk-1"], publicKeyInfo := [7] }

/-- The namespace `/ndn/ucla/mallory`, which the contact manager of `exampleEnv` does not
know. -/
def mallory : Name := ["ndn", "ucla", "mallory"]

/-- The panel that the constructor leaves in the example environment. -/
def constructedPanel : ContactPanel :=
  (ContactPanel.construct exampleEnv exampleUi).getD (ContactPanel.fresh exampleUi)

/-- The example panel after `startChatroom` for the chatroom `lunch` with invitee `bob`. -/
def exampleChatPanel : ContactPanel :=
  startChatroom exampleEnv examplePanel "lunch" "bob" false

/-- The example panel with a displayed list whose first entry, `Zed`, is the alias of no
contact. -/
def exampleStalePanel : ContactPanel :=
  { examplePanel with m_contactListModel := ["Zed", "Bob"] }

/-- A contact whose alias has a NUL character after `Al`. -/
def nulContact : ContactItem :=
  { m_nameSpace := ["ndn", "ucla", "al"],
    m_alias := String.mk ['A', 'l', Char.ofNat 0, 'i', 'c', 'e'],
    m_name := "Al", m_institution := "UCLA", m_isIntroducer := false,
    m_selfEndorseCertificate := exampleCertificate ["ndn", "ucla", "al", "ksk-1"] }

/-- The example environment with a contact manager whose list is `nulContact`, `bob`. -/
def exampleNulEnv : Env :=
  { exampleEnv with getContactItemList := [nulContact, bob] }

/-- The Data packet that answers the Interest for the certificate of `mallory`; in
`exampleEnv` its name is the key name of the certificate it carries. -/
def malloryCertificateData : Data :=
  { name := mallory ++ ["ksk-1"], content := "" }

/-! ## Invitations are verified before they are shown -/

/-- The loop of `popChatInvitation` has no `break`: it is left with the iterator at the
end of the contact list. -/
theorem popChatInvitation_loop_fst (inviterNameSpace : Name) (contactList : List ContactItem)
    (theAlias : String) :
    (popChatInvitation.loop inviterNameSpace contactList theAlias).1 = [] := by
  induction contactList generalizing theAlias with
  | nil => rfl
  | cons c rest ih => simpa [popChatInvitation.loop] using ih _

/-- What `popChatInvitation` does to the panel: it fills the invitation dialog, emits
`newInvitationReady` once and shows the dialog. -/
theorem popChatInvitation_eq (p : ContactPanel) (invitation : ChronosInvitation)
    (inviterNameSpace : Name) (certificate : IdentityCertificate) :
    popChatInvitation p invitation inviterNameSpace certificate =
      { p with
          m_invitationDialog :=
            { invitation :=
                some ((popChatInvitation.loop inviterNameSpace p.m_contactList "").2,
                  invitation, certificate),
              visible := true },
          newInvitationReady := p.newInvitationReady + 1 } := by
  have h := popChatInvitation_loop_fst inviterNameSpace p.m_contactList ""
  unfold popChatInvitation
  rcases hloop : popChatInvitation.loop inviterNameSpace p.m_contactList "" with ⟨it, theAlias⟩
  rw [hloop] at h
  simp only at h
  subst h
  simp [openInvitationDialog]

/-- Claim C1: `onInvitationCertVerified` calls `popChatInvitation` exactly when
`PolicyManager::verifySignature`, applied to the signed blob and the signature bits of the
invitation and to the public key of the fetched certificate, returns true.  The call fills
the invitation dialog with the invitation and the certificate and emits
`newInvitationReady` once.  When the signature does not verify the panel is unchanged, and
`onUnverified` and `onTimeout` leave the panel unchanged. -/
theorem onInvitationCertVerified_verifies (E : Env) (p : ContactPanel) (data : Data)
    (invitation : ChronosInvitation) (closure : Closure) (interest : Interest) :
    (onInvitationCertVerified E p data invitation =
      if E.verifySignature invitation.signedBlob invitation.signatureBits
          (E.certificateOfData data).publicKeyInfo = true then
        popChatInvitation p invitation
          ((E.certificateOfData data).publicKeyName.getPrefix
            (((E.certificateOfData data).publicKeyName.length + 2 ^ 64 - 1) % 2 ^ 64))
          (E.certificateOfData data)
      else p) ∧
    (∀ (inviterNameSpace : Name) (certificate : IdentityCertificate),
      (∃ theAlias : String,
        (popChatInvitation p invitation inviterNameSpace certificate).m_invitationDialog.invitation
          = some (theAlias, invitation, certificate)) ∧
      (popChatInvitation p invitation inviterNameSpace certificate).newInvitationReady
        = p.newInvitationReady + 1) ∧
    ((onInvitationCertVerified E p data invitation).newInvitationReady
        = p.newInvitationReady + 1 ↔
      E.verifySignature invitation.signedBlob invitation.signatureBits
        (E.certificateOfData data).publicKeyInfo = true) ∧
    (E.verifySignature invitation.signedBlob invitation.signatureBits
        (E.certificateOfData data).publicKeyInfo = false →
      onInvitationCertVerified E p data invitation = p) ∧
    onUnverified p data = p ∧
    onTimeout p closure interest = p := by
  refine ⟨?_, ?_, ?_, ?_, rfl, rfl⟩
  · unfold onInvitationCertVerified
    simp only
  · intro inviterNameSpace certificate
    rw [popChatInvitation_eq]
    exact ⟨⟨_, rfl⟩, rfl⟩
  · unfold onInvitationCertVerified
    simp only
    split
    · rename_i hv
      simp [popChatInvitation_eq, hv]
    · rename_i hv
      simp [hv]
  · intro hv
    unfold onInvitationCertVerified
    simp [hv]

/-! ## The local routing prefix -/

/-- A text without a NUL character is the text of its C string. -/
theorem cString_eq_self (text : String) (hnul : Char.ofNat 0 ∉ text.toList) :
    cString text = text := by
  have htake : text.toList.takeWhile (fun c => decide (c ≠ Char.ofNat 0)) = text.toList := by
    rw [List.takeWhile_eq_self_iff]
    intro c hc
    have hne : c ≠ Char.ofNat 0 := fun h => hnul (h ▸ hc)
    simpa using hne
  unfold cString
  rw [htake]
  rfl

/-- The loop of `refreshContactList` appends, for the contacts from index `i` on and in
their order, the alias of each read as a C string. -/
theorem refreshContactList_loop_eq (contactList : List ContactItem) (i : Nat)
    (contactNameList : List String) :
    refreshContactList.loop contactList i contactNameList =
      contactNameList ++ (contactList.drop i).map (fun c => cString c.m_alias) := by
  generalize hk : contactList.length - i = k
  induction k generalizing i contactNameList with
  | zero =>
    unfold refreshContactList.loop
    have hle : contactList.length ≤ i := by omega
    simp [Nat.not_lt.mpr hle, List.drop_of_length_le hle]
  | succ k ih =>
    unfold refreshContactList.loop
    have hlt : i < contactList.length := by omega
    simp only [hlt, dite_true]
    rw [ih (i + 1) _ (by omega)]
    rw [List.drop_eq_getElem_cons hlt]
    simp only [List.map_cons, List.append_assoc, List.singleton_append]

/-- Counterexample to claim C5 as it is stated: the contact manager lists a contact whose
alias is `Al`, a NUL character, `ice`.  `refreshContactList` appends
`QString::fromUtf8(getAlias().c_str())`, and the C string ends at the NUL character: the
first entry of the displayed list is `Al`, which is not the alias of the first contact. -/
theorem refreshContactList_nul_alias :
    (refreshContactList exampleNulEnv examplePanel).m_contactList = [nulContact, bob] ∧
    (refreshContactList exampleNulEnv examplePanel).m_contactListModel = ["Al", "Bob"] ∧
    (refreshContactList exampleNulEnv examplePanel).m_contactListModel[0]? ≠
      ((refreshContactList exampleNulEnv examplePanel).m_contactList[0]?).map
        ContactItem.m_alias := by
  have hmodel : (refreshContactList exampleNulEnv examplePanel).m_contactListModel
      = ["Al", "Bob"] := by
    simp only [refreshContactList, refreshContactList_loop_eq]
    decide
  refine ⟨rfl, hmodel, ?_⟩
  rw [hmodel]
  decide

/-- Claim C5, amended: after `refreshContactList`, `m_contactList` is the list that
`getContactItemList()` returned, and the string list given to `m_contactListModel` has the
length of `m_contactList` and holds at each index the alias of the contact at that index
read as a C string, that is the alias up to its first NUL character; for a contact whose
alias has no NUL character the entry is the alias itself.  Order and duplicates are kept. -/
theorem refreshContactList_mirrors (E : Env) (p : ContactPanel) :
    (refreshContactList E p).m_contactList = E.getContactItemList ∧
    (refreshContactList E p).m_contactListModel.length
      = (refreshContactList E p).m_contactList.length ∧
    (∀ i : Nat, i < (refreshContactList E p).m_contactList.length →
      (refreshContactList E p).m_contactListModel[i]?
        = ((refreshContactList E p).m_contactList[i]?).map (fun c => cString c.m_alias)) ∧
    (refreshContactList E p).m_contactListModel
      = (refreshContactList E p).m_contactList.map (fun c => cString c.m_alias) ∧
    (∀ (i : Nat) (c : ContactItem), (refreshContactList E p).m_contactList[i]? = some c →
      Char.ofNat 0 ∉ c.m_alias.toList →
      (refreshContactList E p).m_contactListModel[i]? = some c.m_alias) ∧
    ((∀ c ∈ E.getContactItemList, Char.ofNat 0 ∉ c.m_alias.toList) →
      (refreshContactList E p).m_contactListModel
        = (refreshContactList E p).m_contactList.map ContactItem.m_alias) := by
  have hmodel : (refreshContactList E p).m_contactListModel
      = (refreshContactList E p).m_contactList.map (fun c => cString c.m_alias) := by
    simp [refreshContactList, refreshContactList_loop_eq]
  refine ⟨rfl, ?_, ?_, hmodel, ?_, ?_⟩
  · rw [hmodel, List.length_map]
  · intro i _
    rw [hmodel, List.getElem?_map]
  · intro i c hc hnul
    rw [hmodel, List.getElem?_map, hc, Option.map_some', cString_eq_self _ hnul]
  · intro hall
    rw [hmodel]
    apply List.map_congr_left
    intro c hc
    exact cString_eq_self _ (hall c hc)

/-- The theorem `refreshContactList_mirrors` on the example environment, whose contacts
`alice` and `bob` have aliases without a NUL character: the displayed list is `Alice`,
`Bob`. -/
theorem refreshContactList_mirrors_witness :
    (∀ c ∈ exampleEnv.getContactItemList, Char.ofNat 0 ∉ c.m_alias.toList) ∧
    (refreshContactList exampleEnv examplePanel).m_contactListModel = ["Alice", "Bob"] :=
  ⟨by decide,
    ((refreshContactList_mirrors exampleEnv examplePanel).2.2.2.2.2 (by decide)).trans rfl⟩

/-! ## The endorse certificate -/

/-- Claim C8: each accessor of `EndorseCertificate` returns the member it is named after
(`getSigner` the member `m_signer`, `getProfileData` the member `m_profileData`,
`getEndorseList` the member `m_endorseList`, `getPublicKeyName` the member `m_keyName`) and
leaves the certificate as it was. -/
theorem endorseCertificate_accessors (c : EndorseCertificate) :
    (c.getSigner.1 = c.m_signer ∧ c.getSigner.2 = c) ∧
    (c.getProfileData.1 = c.m_profileData ∧ c.getProfileData.2 = c) ∧
    (c.getEndorseList.1 = c.m_endorseList ∧ c.getEndorseList.2 = c) ∧
    (c.getPublicKeyName.1 = c.m_keyName ∧ c.getPublicKeyName.2 = c) :=
  ⟨⟨rfl, rfl⟩, ⟨rfl, rfl⟩, ⟨rfl, rfl⟩, ⟨rfl, rfl⟩⟩

/-! ## Introducers -/

/-- Claim C6: when a contact is selected, `isIntroducerChanged(state)` returns, and
afterwards the selected contact's `isIntroducer()` is `state == Qt::Checked`, the contact
storage has received `updateIsIntroducer` with the contact's namespace and that same value,
and the `addScope` button, the `deleteScope` button and `trustScopeList` are enabled exactly
when `state == Qt::Checked`. -/
theorem isIntroducerChanged_flags (E : Env) (p : ContactPanel) (state : Int)
    (contact : ContactItem) (hsel : p.m_currentSelectedContact = some contact) :
    ∃ p1 : ContactPanel, isIntroducerChanged E p state = some p1 ∧
      (∃ current : ContactItem, p1.m_currentSelectedContact = some current ∧
        current.m_nameSpace = contact.m_nameSpace ∧
        current.m_isIntroducer = decide (state = Qt.Checked)) ∧
      p1.m_contactManager.updateIsIntroducer =
        p.m_contactManager.updateIsIntroducer ++
          [(contact.m_nameSpace, decide (state = Qt.Checked))] ∧
      p1.ui.addScopeEnabled = decide (state = Qt.Checked) ∧
      p1.ui.deleteScopeEnabled = decide (state = Qt.Checked) ∧
      p1.ui.trustScopeList.enabled = decide (state = Qt.Checked) := by
  unfold isIntroducerChanged
  rw [hsel]
  by_cases hstate : state = Qt.Checked
  · simp [hstate, selectTrustScope, QTableView.showTrustScope, ContactItem.setIsIntroducer]
  · simp [hstate, selectTrustScope, QTableView.showTrustScope, ContactItem.setIsIntroducer]

/-- The theorem `isIntroducerChanged_flags` on the example panel, where `bob` is selected
and the box is checked. -/
theorem isIntroducerChanged_flags_witness :
    examplePanel.m_currentSelectedContact = some bob ∧
    ∃ p1 : ContactPanel, isIntroducerChanged exampleEnv examplePanel 2 = some p1 ∧
      (∃ current : ContactItem, p1.m_currentSelectedContact = some current ∧
        current.m_nameSpace = bob.m_nameSpace ∧
        current.m_isIntroducer = decide ((2 : Int) = Qt.Checked)) ∧
      p1.m_contactManager.updateIsIntroducer =
        examplePanel.m_contactManager.updateIsIntroducer ++
          [(bob.m_nameSpace, decide ((2 : Int) = Qt.Checked))] ∧
      p1.ui.addScopeEnabled = decide ((2 : Int) = Qt.Checked) ∧
      p1.ui.deleteScopeEnabled = decide ((2 : Int) = Qt.Checked) ∧
      p1.ui.trustScopeList.enabled = decide ((2 : Int) = Qt.Checked) :=
  ⟨rfl, isIntroducerChanged_flags exampleEnv examplePanel 2 bob rfl⟩

/-! ## One dialog for each chatroom -/

/-- After `insert`, the key is in the map. -/
theorem ChatDialogs.find_insert_isSome (m : ChatDialogs) (key : Name) (dialog : ChatDialog) :
    ((m.insert key dialog).find key).isSome = true := by
  unfold ChatDialogs.insert
  cases hfind : m.find key with
  | some e => simp [hfind]
  | none =>
    simp only [ChatDialogs.find] at hfind ⊢
    simp [List.find?_append, hfind]

/-- The map that `startChatroom2` leaves: the result of inserting, under the name
`/ndn/broadcast/chronos` followed by the chatroom of the invitation, a dialog for that
chatroom. -/
theorem startChatroom2_chatDialogs (E : Env) (p p1 : ContactPanel)
    (invitation : ChronosInvitation) (certificate : IdentityCertificate)
    (h : startChatroom2 E p invitation certificate = some p1) :
    ∃ dialog : ChatDialog,
      dialog.chatroomName = E.nameOfUri "/ndn/broadcast/chronos" ++ invitation.chatroom ∧
      p1 = { p with
        m_chatDialogs :=
          p.m_chatDialogs.insert
            (E.nameOfUri "/ndn/broadcast/chronos" ++ invitation.chatroom) dialog } := by
  unfold startChatroom2 at h
  cases hc : E.getContact invitation.inviterNameSpace with
  | none => simp [hc] at h
  | some item =>
    simp only [hc, Option.some.injEq] at h
    exact ⟨_, rfl, h.symm⟩

/-- Claim C7: `onInvitation` looks up in `m_chatDialogs` the name `/ndn/broadcast/chronos`
followed by the chatroom of the invitation, the key under which `startChatroom2` inserts
the dialog for the same invitation (so an invitation to a chatroom that `startChatroom2`
has opened is dropped).  When the key is present `onInvitation` leaves the panel as it
was; when it is absent the only change is one more Interest sent, named by
`getInviterCertificateName()`, with the closure of `onInvitationCertVerified` bound to the
invitation, `onTimeout` and `onUnverified`. -/
theorem onInvitation_one_dialog (E : Env) (p : ContactPanel) (interest : Interest) :
    (∀ (q q1 : ContactPanel) (certificate : IdentityCertificate),
      startChatroom2 E q (E.invitationOfName interest.name) certificate = some q1 →
        (∃ dialog : ChatDialog,
          q1.m_chatDialogs =
            q.m_chatDialogs.insert
              (E.nameOfUri "/ndn/broadcast/chronos" ++ (E.invitationOfName interest.name).chatroom)
              dialog) ∧
        (q1.m_chatDialogs.find
          (E.nameOfUri "/ndn/broadcast/chronos" ++ (E.invitationOfName interest.name).chatroom)).isSome
          = true ∧
        onInvitation E q1 interest = q1) ∧
    ((p.m_chatDialogs.find
        (E.nameOfUri "/ndn/broadcast/chronos" ++ (E.invitationOfName interest.name).chatroom)).isSome
        = true →
      onInvitation E p interest = p) ∧
    (p.m_chatDialogs.find
        (E.nameOfUri "/ndn/broadcast/chronos" ++ (E.invitationOfName interest.name).chatroom)
        = none →
      onInvitation E p interest =
        { p with m_handler :=
            { p.m_handler with sentInterests :=
                p.m_handler.sentInterests ++
                  [(Interest.ofName (E.invitationOfName interest.name).inviterCertificateName,
                    { dataCallback :=
                        DataCallback.onInvitationCertVerified (E.invitationOfName interest.name),
                      timeoutCallback := TimeoutCallback.onTimeout,
                      unverifiedCallback := DataCallback.onUnverified })] } } ∧
      (onInvitation E p interest).m_handler.sentInterests.length
        = p.m_handler.sentInterests.length + 1) := by
  have hpresent : ∀ q : ContactPanel,
      (q.m_chatDialogs.find
        (E.nameOfUri "/ndn/broadcast/chronos" ++ (E.invitationOfName interest.name).chatroom)).isSome
        = true → onInvitation E q interest = q := by
    intro q hq
    unfold onInvitation
    cases hfind : q.m_chatDialogs.find
        (E.nameOfUri "/ndn/broadcast/chronos" ++ (E.invitationOfName interest.name).chatroom) with
    | some e => simp [hfind]
    | none => simp [hfind] at hq
  refine ⟨?_, hpresent p, ?_⟩
  · intro q q1 certificate hstart
    obtain ⟨dialog, _, hq1⟩ := startChatroom2_chatDialogs E q q1 _ certificate hstart
    have hmap : q1.m_chatDialogs =
        q.m_chatDialogs.insert
          (E.nameOfUri "/ndn/broadcast/chronos" ++ (E.invitationOfName interest.name).chatroom)
          dialog := by rw [hq1]
    have hsome := ChatDialogs.find_insert_isSome q.m_chatDialogs
      (E.nameOfUri "/ndn/broadcast/chronos" ++ (E.invitationOfName interest.name).chatroom) dialog
    rw [← hmap] at hsome
    exact ⟨⟨dialog, hmap⟩, hsome, hpresent q1 hsome⟩
  · intro habsent
    unfold onInvitation
    simp [habsent, Wrapper.sendInterest]

/-! ## Collecting endorsements -/

/-- The loop of `collectEndorsement` sends, after the Interests already sent, one Interest
for each contact, numbered from `count`. -/
theorem collectEndorsement_loop_eq (defaultIdentity : Name) (contactList : List ContactItem)
    (count : Nat) (handler : Wrapper) :
    collectEndorsement.loop defaultIdentity contactList count handler =
      { handler with sentInterests :=
          handler.sentInterests ++
            (contactList.enumFrom count).map (fun ic =>
              (({ name := ic.2.m_nameSpace ++ ["DNS"] ++ defaultIdentity ++ ["ENDORSEE"],
                  childSelector := some ChildSelector.childRight,
                  interestLifetime := some 1 } : Interest),
               ({ dataCallback := DataCallback.onDnsEndorseeVerified ic.1,
                  timeoutCallback := TimeoutCallback.onDnsEndorseeTimeout ic.1,
                  unverifiedCallback := DataCallback.onDnsEndorseeUnverified ic.1 } : Closure))) } := by
  induction contactList generalizing count handler with
  | nil => simp [collectEndorsement.loop]
  | cons c rest ih =>
    simp only [collectEndorsement.loop, ih, Wrapper.sendInterest, Interest.ofName,
      List.enumFrom_cons, List.map_cons, List.append_assoc, List.singleton_append]

/-- Claim C9: `collectEndorsement` resets `m_collectStatus` to as many entries as there are
contacts, all false, and sends one Interest for each contact after those already sent: for
the contact at index `i` the Interest is named by the contact's namespace followed by `DNS`,
the default identity and `ENDORSEE`, and its verified, timeout and unverified callbacks all
carry `i`.  Every index carried is an index of `m_collectStatus`, so `updateCollectStatus`
returns on it. -/
theorem collectEndorsement_requests (p : ContactPanel) :
    (collectEndorsement p).m_collectStatus = List.replicate p.m_contactList.length false ∧
    (collectEndorsement p).m_collectStatus.length = p.m_contactList.length ∧
    (collectEndorsement p).m_handler.sentInterests.length
      = p.m_handler.sentInterests.length + p.m_contactList.length ∧
    (collectEndorsement p).m_handler.sentInterests.take p.m_handler.sentInterests.length
      = p.m_handler.sentInterests ∧
    (∀ (i : Nat) (c : ContactItem), p.m_contactList[i]? = some c →
      (collectEndorsement p).m_handler.sentInterests[p.m_handler.sentInterests.length + i]? =
        some (({ name := c.m_nameSpace ++ ["DNS"] ++ p.m_defaultIdentity ++ ["ENDORSEE"],
                 childSelector := some ChildSelector.childRight,
                 interestLifetime := some 1 } : Interest),
              ({ dataCallback := DataCallback.onDnsEndorseeVerified i,
                 timeoutCallback := TimeoutCallback.onDnsEndorseeTimeout i,
                 unverifiedCallback := DataCallback.onDnsEndorseeUnverified i } : Closure)) ∧
      i < (collectEndorsement p).m_collectStatus.length ∧
      (updateCollectStatus (collectEndorsement p) i).isSome = true) := by
  have hsent := collectEndorsement_loop_eq p.m_defaultIdentity p.m_contactList 0 p.m_handler
  have hlen : (collectEndorsement p).m_collectStatus.length = p.m_contactList.length := by
    simp [collectEndorsement]
  refine ⟨rfl, hlen, ?_, ?_, ?_⟩
  · simp [collectEndorsement, hsent]
  · simp [collectEndorsement, hsent]
  · intro i c hc
    have hi : i < p.m_contactList.length := (List.getElem?_eq_some_iff.mp hc).1
    refine ⟨?_, by omega, ?_⟩
    · simp only [collectEndorsement, hsent]
      rw [List.getElem?_append_right (Nat.le_add_right _ _)]
      simp [hc]
    · unfold updateCollectStatus
      rw [if_pos (by omega)]
      simp only
      split <;> rfl

/-! ## Publishing the endorsed data once every request has completed -/

/-- The scan of `updateCollectStatus` reaches the end exactly when every entry is true. -/
theorem updateCollectStatus_loop_iff (status : List Bool) :
    updateCollectStatus.loop status = true ↔
      ∀ i : Nat, i < status.length → status[i]? = some true := by
  induction status with
  | nil => simp [updateCollectStatus.loop]
  | cons b rest ih =>
    unfold updateCollectStatus.loop
    constructor
    · intro h i hi
      cases b with
      | false => simp at h
      | true =>
        simp only [Bool.true_eq_false, if_false] at h
        cases i with
        | zero => simp
        | succ j =>
          simp only [List.getElem?_cons_succ]
          exact ih.mp h j (by simpa using hi)
    · intro h
      have h0 := h 0 (by simp)
      simp only [List.getElem?_cons_zero, Option.some.injEq] at h0
      subst h0
      simp only [Bool.true_eq_false, if_false]
      refine ih.mpr (fun i hi => ?_)
      have := h (i + 1) (by simpa using hi)
      simpa using this

/-- A list of distinct indices below `n` has at most `n` entries, and has `n` entries
exactly when it holds every index below `n`. -/
theorem distinct_indices_length (n : Nat) (indices : List Nat) (hnodup : indices.Nodup)
    (hlt : ∀ c ∈ indices, c < n) :
    indices.length ≤ n ∧ ((∀ i : Nat, i < n → i ∈ indices) ↔ indices.length = n) := by
  have hsub : indices ⊆ List.range n := fun c hc => List.mem_range.mpr (hlt c hc)
  have hsubperm : indices.Subperm (List.range n) := List.subperm_of_subset hnodup hsub
  have hle : indices.length ≤ n := by simpa using hsubperm.length_le
  refine ⟨hle, ?_, ?_⟩
  · intro hall
    have hsub2 : List.range n ⊆ indices := fun i hi => hall i (List.mem_range.mp hi)
    have h2 := (List.subperm_of_subset (List.nodup_range n) hsub2).length_le
    simp only [List.length_range] at h2
    omega
  · intro hlen i hi
    have hperm : indices.Perm (List.range n) :=
      hsubperm.perm_of_length_le (by simp [hlen])
    exact hperm.mem_iff.mpr (List.mem_range.mpr hi)

/-- One report whose index is an index of `m_collectStatus` returns: it sets that entry,
keeps the default identity, and calls `publishEndorsedDataInDns(m_defaultIdentity)` exactly
when every entry is then true. -/
theorem EndorseeReport.deliver_eq (E : Env) (p : ContactPanel) (r : EndorseeReport)
    (hlt : r.count < p.m_collectStatus.length) :
    ∃ p1 : ContactPanel, r.deliver E p = some p1 ∧
      p1.m_collectStatus = p.m_collectStatus.set r.count true ∧
      p1.m_defaultIdentity = p.m_defaultIdentity ∧
      p1.m_contactManager.publishEndorsedDataInDns =
        p.m_contactManager.publishEndorsedDataInDns ++
          (if updateCollectStatus.loop (p.m_collectStatus.set r.count true) = true
            then [p.m_defaultIdentity] else []) := by
  cases r with
  | verified data count =>
    simp only [EndorseeReport.count] at hlt
    simp only [EndorseeReport.deliver, onDnsEndorseeVerified, updateCollectStatus,
      EndorseeReport.count, hlt, if_true]
    split <;> simp
  | timeout closure interest count =>
    simp only [EndorseeReport.count] at hlt
    simp only [EndorseeReport.deliver, onDnsEndorseeTimeout, updateCollectStatus,
      EndorseeReport.count, hlt, if_true]
    split <;> simp
  | unverified data count =>
    simp only [EndorseeReport.count] at hlt
    simp only [EndorseeReport.deliver, onDnsEndorseeUnverified, updateCollectStatus,
      EndorseeReport.count, hlt, if_true]
    split <;> simp

/-- A run of reports with distinct indices, none of them reported before: every report
returns, and `publishEndorsedDataInDns(m_defaultIdentity)` is called once if the run
completes the status vector, and not at all otherwise.  `reported` lists the indices whose
entry is already true. -/
theorem deliverReports_publish (E : Env) (n : Nat) (reports : List EndorseeReport) :
    ∀ (p : ContactPanel) (reported : List Nat),
      p.m_collectStatus.length = n →
      (∀ i : Nat, i < n → (p.m_collectStatus[i]? = some true ↔ i ∈ reported)) →
      (reported ++ reports.map EndorseeReport.count).Nodup →
      (∀ c ∈ reported ++ reports.map EndorseeReport.count, c < n) →
      ∃ p1 : ContactPanel, deliverReports E p reports = some p1 ∧
        p1.m_defaultIdentity = p.m_defaultIdentity ∧
        p1.m_contactManager.publishEndorsedDataInDns =
          p.m_contactManager.publishEndorsedDataInDns ++
            (if reported.length < n ∧ reported.length + reports.length = n
              then [p.m_defaultIdentity] else []) := by
  induction reports with
  | nil =>
    intro p reported _ _ _ _
    refine ⟨p, rfl, rfl, ?_⟩
    have : ¬ (reported.length < n ∧ reported.length + ([] : List EndorseeReport).length = n) := by
      simp only [List.length_nil, Nat.add_zero]
      omega
    rw [if_neg this, List.append_nil]
  | cons r rest ih =>
    intro p reported hlen hinv hnodup hbound
    have hc : r.count < n := hbound r.count (by simp)
    obtain ⟨p1, hdeliver, hstatus, hident, hlog⟩ := r.deliver_eq E p (by omega)
    have hnodup1 : ((reported ++ [r.count]) ++ rest.map EndorseeReport.count).Nodup := by
      simpa [List.append_assoc] using hnodup
    have hbound1 : ∀ c ∈ (reported ++ [r.count]) ++ rest.map EndorseeReport.count, c < n := by
      intro c hmem
      exact hbound c (by simpa [List.append_assoc] using hmem)
    have hlen1 : p1.m_collectStatus.length = n := by rw [hstatus, List.length_set, hlen]
    have hinv1 : ∀ i : Nat, i < n →
        (p1.m_collectStatus[i]? = some true ↔ i ∈ reported ++ [r.count]) := by
      intro i hi
      rw [hstatus, List.getElem?_set]
      by_cases hci : r.count = i
      · subst hci
        simp [hlen, hc]
      · have hne : i ≠ r.count := fun h => hci h.symm
        simp [hci, hinv i hi, hne]
    have hnodupR : (reported ++ [r.count]).Nodup := (List.nodup_append.mp hnodup1).1
    have hboundR : ∀ c ∈ reported ++ [r.count], c < n :=
      fun c hmem => hbound1 c (List.mem_append_left _ hmem)
    have hcount := distinct_indices_length n (reported ++ [r.count]) hnodupR hboundR
    have htotal := (distinct_indices_length n _ hnodup1 hbound1).1
    simp only [List.length_append, List.length_map, List.length_singleton] at htotal
    have hpublish : updateCollectStatus.loop (p.m_collectStatus.set r.count true) = true ↔
        reported.length + 1 = n := by
      rw [updateCollectStatus_loop_iff, ← hstatus, hlen1]
      have hmem : (∀ i : Nat, i < n → p1.m_collectStatus[i]? = some true) ↔
          (∀ i : Nat, i < n → i ∈ reported ++ [r.count]) :=
        ⟨fun h i hi => (hinv1 i hi).mp (h i hi), fun h i hi => (hinv1 i hi).mpr (h i hi)⟩
      rw [hmem, hcount.2, List.length_append, List.length_singleton]
    obtain ⟨p2, hrun, hident2, hlog2⟩ := ih p1 (reported ++ [r.count]) hlen1 hinv1 hnodup1 hbound1
    refine ⟨p2, ?_, by rw [hident2, hident], ?_⟩
    · simp only [deliverReports, hdeliver, hrun]
    · rw [hlog2, hlog, hident]
      simp only [List.length_append, List.length_singleton, List.length_cons]
      by_cases hlast : reported.length + 1 = n
      · have h1 : updateCollectStatus.loop (p.m_collectStatus.set r.count true) = true :=
          hpublish.mpr hlast
        have h2 : ¬ (reported.length + 1 < n ∧ reported.length + 1 + rest.length = n) := by omega
        have h3 : reported.length < n ∧ reported.length + (rest.length + 1) = n := by omega
        simp [h1, h2, h3]
      · have h1 : ¬ updateCollectStatus.loop (p.m_collectStatus.set r.count true) = true :=
          fun h => hlast (hpublish.mp h)
        by_cases hfull : reported.length + 1 + rest.length = n
        · have h2 : reported.length + 1 < n ∧ reported.length + 1 + rest.length = n := by omega
          have h3 : reported.length < n ∧ reported.length + (rest.length + 1) = n := by omega
          simp [h1, h2, h3]
        · have h2 : ¬ (reported.length + 1 < n ∧ reported.length + 1 + rest.length = n) := by
            omega
          have h3 : ¬ (reported.length < n ∧ reported.length + (rest.length + 1) = n) := by omega
          simp [h1, h2, h3]

/-- Claim C2: let the contact list have `n >= 1` contacts and let the `n` requests started
by `collectEndorsement` complete in any order, each index below `n` reported once through
`onDnsEndorseeVerified`, `onDnsEndorseeTimeout` or `onDnsEndorseeUnverified`.  Then every
report returns; after any number of reports short of all of them
`publishEndorsedDataInDns` has not been called; and after the last one it has been called
once, with `m_defaultIdentity`. -/
theorem publish_once_at_last_report (E : Env) (p : ContactPanel) (reports : List EndorseeReport)
    (hn : 1 ≤ p.m_contactList.length)
    (hperm : (reports.map EndorseeReport.count).Perm (List.range p.m_contactList.length)) :
    (∀ k : Nat, k < reports.length →
      ∃ q : ContactPanel, deliverReports E (collectEndorsement p) (reports.take k) = some q ∧
        q.m_contactManager.publishEndorsedDataInDns
          = p.m_contactManager.publishEndorsedDataInDns ∧
        publishCalls q = publishCalls p) ∧
    (∃ p1 : ContactPanel, deliverReports E (collectEndorsement p) reports = some p1 ∧
      p1.m_contactManager.publishEndorsedDataInDns
        = p.m_contactManager.publishEndorsedDataInDns ++ [p.m_defaultIdentity] ∧
      publishCalls p1 = publishCalls p + 1) := by
  have hlenR : reports.length = p.m_contactList.length := by
    have := hperm.length_eq
    simpa using this
  have hnodup : (reports.map EndorseeReport.count).Nodup :=
    hperm.nodup_iff.mpr (List.nodup_range _)
  have hbound : ∀ c ∈ reports.map EndorseeReport.count, c < p.m_contactList.length :=
    fun c hc => List.mem_range.mp (hperm.mem_iff.mp hc)
  have hlen0 : (collectEndorsement p).m_collectStatus.length = p.m_contactList.length := by
    simp [collectEndorsement]
  have hinv0 : ∀ i : Nat, i < p.m_contactList.length →
      ((collectEndorsement p).m_collectStatus[i]? = some true ↔ i ∈ ([] : List Nat)) := by
    intro i hi
    simp [collectEndorsement, List.getElem?_replicate, hi]
  constructor
  · intro k hk
    have hsub : ((reports.take k).map EndorseeReport.count).Sublist
        (reports.map EndorseeReport.count) := (List.take_sublist k reports).map _
    obtain ⟨q, hrun, _, hlog⟩ :=
      deliverReports_publish E p.m_contactList.length (reports.take k) (collectEndorsement p) []
        hlen0 hinv0 (by simpa using hnodup.sublist hsub)
        (by
          intro c hc
          exact hbound c (hsub.subset (by simpa using hc)))
    have hcond : ¬ (([] : List Nat).length < p.m_contactList.length ∧
        ([] : List Nat).length + (reports.take k).length = p.m_contactList.length) := by
      simp only [List.length_nil, List.length_take]
      omega
    rw [if_neg hcond, List.append_nil] at hlog
    have hlog1 : q.m_contactManager.publishEndorsedDataInDns
        = p.m_contactManager.publishEndorsedDataInDns := hlog
    exact ⟨q, hrun, hlog1, by simp only [publishCalls, hlog1]⟩
  · obtain ⟨p1, hrun, _, hlog⟩ :=
      deliverReports_publish E p.m_contactList.length reports (collectEndorsement p) []
        hlen0 hinv0 (by simpa using hnodup) (by simpa using hbound)
    have hcond : ([] : List Nat).length < p.m_contactList.length ∧
        ([] : List Nat).length + reports.length = p.m_contactList.length := by
      simp only [List.length_nil]
      omega
    rw [if_pos hcond] at hlog
    have hlog1 : p1.m_contactManager.publishEndorsedDataInDns
        = p.m_contactManager.publishEndorsedDataInDns ++ [p.m_defaultIdentity] := hlog
    exact ⟨p1, hrun, hlog1, by simp [publishCalls, hlog1]⟩

/-- The theorem `publish_once_at_last_report` on the example panel: two contacts, the
request for `bob` completing before the request for `alice`. -/
theorem publish_once_at_last_report_witness :
    (1 ≤ examplePanel.m_contactList.length ∧
      (exampleReports.map EndorseeReport.count).Perm
        (List.range examplePanel.m_contactList.length)) ∧
    ((∀ k : Nat, k < exampleReports.length →
      ∃ q : ContactPanel,
        deliverReports exampleEnv (collectEndorsement examplePanel) (exampleReports.take k)
          = some q ∧
        q.m_contactManager.publishEndorsedDataInDns
          = examplePanel.m_contactManager.publishEndorsedDataInDns ∧
        publishCalls q = publishCalls examplePanel) ∧
    (∃ p1 : ContactPanel,
      deliverReports exampleEnv (collectEndorsement examplePanel) exampleReports = some p1 ∧
      p1.m_contactManager.publishEndorsedDataInDns
        = examplePanel.m_contactManager.publishEndorsedDataInDns
            ++ [examplePanel.m_defaultIdentity] ∧
      publishCalls p1 = publishCalls examplePanel + 1)) :=
  ⟨⟨by decide, by decide⟩,
    publish_once_at_last_report exampleEnv examplePanel exampleReports (by decide) (by decide)⟩

/-! ## Accepting and rejecting an invitation -/

/-- Claim C4 at a failing input.  The contact manager of `exampleEnv` has no contact for
`/ndn/ucla/mallory`, so `getContact` gives a null pointer for that namespace.  The panel
shows an invitation from it all the same: when the certificate Data arrives and the
signature verifies, `onInvitationCertVerified` puts the invitation and the certificate in
the invitation dialog and opens it.  Accepting that invitation publishes the Data and then
runs `startChatroom2`, which dereferences the null pointer before it reaches
`m_chatDialogs.insert`: the call does not return and no dialog is registered under the key
of the chatroom, where the claim has a dialog registered for every invitation. -/
theorem acceptInvitation_unknown_inviter :
    exampleEnv.getContact (exampleInvitation mallory).inviterNameSpace = none ∧
    (onInvitationCertVerified exampleEnv examplePanel malloryCertificateData
        (exampleInvitation mallory)).m_invitationDialog
      = { invitation :=
            some ("", exampleInvitation mallory,
              exampleEnv.certificateOfData malloryCertificateData),
          visible := true } ∧
    acceptInvitation exampleEnv
        (onInvitationCertVerified exampleEnv examplePanel malloryCertificateData
          (exampleInvitation mallory))
        (exampleInvitation mallory) (exampleEnv.certificateOfData malloryCertificateData)
      = none ∧
    acceptInvitation exampleEnv examplePanel (exampleInvitation mallory)
      (exampleIdentityCertificate mallory) = none ∧
    ¬ ∃ p1 : ContactPanel,
        acceptInvitation exampleEnv examplePanel (exampleInvitation mallory)
          (exampleIdentityCertificate mallory) = some p1 ∧
        (p1.m_chatDialogs.find
          (exampleEnv.nameOfUri "/ndn/broadcast/chronos"
            ++ (exampleInvitation mallory).chatroom)).isSome = true := by
  have hnone : acceptInvitation exampleEnv examplePanel (exampleInvitation mallory)
      (exampleIdentityCertificate mallory) = none := by decide
  refine ⟨by decide, by decide, by decide, hnone, ?_⟩
  rintro ⟨p1, h, _⟩
  rw [hnone] at h
  exact Option.noConfusion h

/-- Where `getContact` gives a contact for `getInviterNameSpace()`, `acceptInvitation`
publishes Data named `getInterestName()` whose content is the URI of `m_localPrefix`, then
runs `startChatroom2`, which inserts into `m_chatDialogs`, under the name
`/ndn/broadcast/chronos` followed by `getChatroom()`, a dialog built for that name from the
panel's local prefix, default identity and nickname: afterwards the key is in the map, and
it is bound to that dialog when it was not in the map before.  For every invitation,
`rejectInvitation` publishes Data under the same name with empty content and leaves
`m_chatDialogs` as it was. -/
theorem acceptInvitation_registers (E : Env) (p : ContactPanel)
    (invitation : ChronosInvitation) (certificate : IdentityCertificate)
    (inviterItem : ContactItem)
    (hknown : E.getContact invitation.inviterNameSpace = some inviterItem) :
    (acceptInvitation E p invitation certificate =
        startChatroom2 E
          { p with
            m_handler :=
              p.m_handler.publishDataByIdentity invitation.interestName
                (E.toUri p.m_localPrefix) }
          invitation certificate ∧
      ∃ (p1 : ContactPanel) (dialog : ChatDialog),
        acceptInvitation E p invitation certificate = some p1 ∧
        p1.m_handler.publishedData =
          p.m_handler.publishedData ++ [(invitation.interestName, E.toUri p.m_localPrefix)] ∧
        dialog.chatroomName = E.nameOfUri "/ndn/broadcast/chronos" ++ invitation.chatroom ∧
        dialog.localPrefix = p.m_localPrefix ∧
        dialog.defaultIdentity = p.m_defaultIdentity ∧
        dialog.nickName = p.m_nickName ∧
        p1.m_chatDialogs =
          p.m_chatDialogs.insert
            (E.nameOfUri "/ndn/broadcast/chronos" ++ invitation.chatroom) dialog ∧
        (p1.m_chatDialogs.find
          (E.nameOfUri "/ndn/broadcast/chronos" ++ invitation.chatroom)).isSome = true ∧
        (p.m_chatDialogs.find (E.nameOfUri "/ndn/broadcast/chronos" ++ invitation.chatroom)
            = none →
          p1.m_chatDialogs =
            p.m_chatDialogs ++
              [(E.nameOfUri "/ndn/broadcast/chronos" ++ invitation.chatroom, dialog)])) ∧
    ((rejectInvitation p invitation).m_handler.publishedData =
        p.m_handler.publishedData ++ [(invitation.interestName, "")] ∧
      (rejectInvitation p invitation).m_chatDialogs = p.m_chatDialogs ∧
      rejectInvitation p invitation =
        { p with m_handler :=
            { p.m_handler with publishedData :=
                p.m_handler.publishedData ++ [(invitation.interestName, "")] } }) := by
  refine ⟨⟨rfl, ?_⟩, rfl, rfl, rfl⟩
  simp only [acceptInvitation, startChatroom2, hknown]
  refine ⟨_,
    { chatroomName := E.nameOfUri "/ndn/broadcast/chronos" ++ invitation.chatroom,
      localPrefix := p.m_localPrefix, defaultIdentity := p.m_defaultIdentity,
      nickName := p.m_nickName, trial := some true,
      chatDataRules := [(invitation.inviterPrefix, certificate, true)],
      trustAnchors := [inviterItem.m_selfEndorseCertificate],
      sentInvitations := [], visible := true },
    rfl, rfl, rfl, rfl, rfl, rfl, rfl, ?_, ?_⟩
  · exact ChatDialogs.find_insert_isSome _ _ _
  · intro habsent
    simp only [ChatDialogs.insert, habsent]

/-- The lemma `acceptInvitation_registers` on the example panel, for an invitation from
the contact `alice`. -/
theorem acceptInvitation_registers_witness :
    exampleEnv.getContact (exampleInvitation alice.m_nameSpace).inviterNameSpace = some alice ∧
    ∃ p1 : ContactPanel,
      acceptInvitation exampleEnv examplePanel (exampleInvitation alice.m_nameSpace)
        (exampleIdentityCertificate alice.m_nameSpace) = some p1 ∧
      p1.m_handler.publishedData =
        [((exampleInvitation alice.m_nameSpace).interestName,
          exampleEnv.toUri examplePanel.m_localPrefix)] ∧
      (p1.m_chatDialogs.find ["ndn", "broadcast", "chronos", "lunch"]).isSome = true :=
  ⟨by decide,
    match acceptInvitation_registers exampleEnv examplePanel
        (exampleInvitation alice.m_nameSpace) (exampleIdentityCertificate alice.m_nameSpace)
        alice (by decide) with
    | ⟨⟨_, p1, _, h1, h2, _, _, _, _, _, h3, _⟩, _⟩ => ⟨p1, h1, h2, h3⟩⟩

/-! ## The invitation listener follows the default identity -/

/-- The loop of `collectEndorsement` leaves the Interest filters as they were. -/
theorem collectEndorsement_listenerState (p : ContactPanel) :
    listenerState (collectEndorsement p) = listenerState p := by
  simp [listenerState, collectEndorsement, collectEndorsement_loop_eq]

/-- A call of `updateCollectStatus` that returns leaves the listener as it was. -/
theorem updateCollectStatus_listenerState (p p1 : ContactPanel) (count : Nat)
    (h : updateCollectStatus p count = some p1) : listenerState p1 = listenerState p := by
  unfold updateCollectStatus at h
  split at h
  · simp only at h
    split at h <;>
      · simp only [Option.some.injEq] at h
        subst h
        rfl
  · exact Option.noConfusion h

/-- Every call other than `updateDefaultIdentity` leaves the listen prefix, the default
identity and the Interest filters as they were. -/
theorem runEvent_listenerState (E : Env) (p p1 : ContactPanel) (e : Event)
    (hne : ∀ identity nickName : String, e ≠ Event.updateDefaultIdentity identity nickName)
    (h : runEvent E p e = some p1) : listenerState p1 = listenerState p := by
  cases e with
  | refreshContactList => simp only [runEvent, Option.some.injEq] at h; subst h; rfl
  | onLocalPrefixVerified rng data =>
    simp only [runEvent, Option.some.injEq] at h; subst h; rfl
  | onLocalPrefixTimeout rng closure interest =>
    simp only [runEvent, Option.some.injEq] at h; subst h; rfl
  | onInvitation interest =>
    simp only [runEvent, Option.some.injEq] at h
    subst h
    unfold onInvitation
    simp only
    split <;> rfl
  | onInvitationCertVerified data invitation =>
    simp only [runEvent, Option.some.injEq] at h
    subst h
    unfold onInvitationCertVerified
    simp only
    split
    · rw [popChatInvitation_eq]; rfl
    · rfl
  | onUnverified data => simp only [runEvent, Option.some.injEq] at h; subst h; rfl
  | onTimeout closure interest => simp only [runEvent, Option.some.injEq] at h; subst h; rfl
  | onDnsEndorsee report =>
    cases report with
    | verified data count =>
      simp only [runEvent, EndorseeReport.deliver, onDnsEndorseeVerified] at h
      exact (updateCollectStatus_listenerState _ p1 count h).trans rfl
    | timeout closure interest count =>
      simp only [runEvent, EndorseeReport.deliver, onDnsEndorseeTimeout] at h
      exact updateCollectStatus_listenerState _ p1 count h
    | unverified data count =>
      simp only [runEvent, EndorseeReport.deliver, onDnsEndorseeUnverified] at h
      exact updateCollectStatus_listenerState _ p1 count h
  | updateSelection selected =>
    simp only [runEvent, updateSelection] at h
    split at h
    · exact Option.noConfusion h
    · split at h
      · exact Option.noConfusion h
      · simp only [Option.some.injEq] at h
        subst h
        split <;> rfl
  | updateDefaultIdentity identity nickName => exact absurd rfl (hne identity nickName)
  | openProfileEditor => simp only [runEvent, Option.some.injEq] at h; subst h; rfl
  | openAddContactPanel => simp only [runEvent, Option.some.injEq] at h; subst h; rfl
  | openInvitationDialog => simp only [runEvent, Option.some.injEq] at h; subst h; rfl
  | openSetAliasDialog =>
    simp only [runEvent, openSetAliasDialog] at h
    split at h
    · exact Option.noConfusion h
    · simp only [Option.some.injEq] at h; subst h; rfl
  | openSettingDialog => simp only [runEvent, Option.some.injEq] at h; subst h; rfl
  | openStartChatDialog rng =>
    simp only [runEvent, openStartChatDialog] at h
    split at h
    · exact Option.noConfusion h
    · simp only [Option.some.injEq] at h; subst h; rfl
  | startChatroom chatroom invitee isIntroducer =>
    simp only [runEvent, Option.some.injEq] at h; subst h; rfl
  | acceptInvitation invitation certificate =>
    simp only [runEvent, acceptInvitation, startChatroom2] at h
    split at h
    · exact Option.noConfusion h
    · simp only [Option.some.injEq] at h; subst h; rfl
  | rejectInvitation invitation => simp only [runEvent, Option.some.injEq] at h; subst h; rfl
  | isIntroducerChanged state =>
    simp only [runEvent, isIntroducerChanged] at h
    split at h
    · exact Option.noConfusion h
    · split at h
      · exact Option.noConfusion h
      · simp only [Option.some.injEq] at h
        subst h
        split <;> rfl
  | showContextMenu => simp only [runEvent, Option.some.injEq] at h; subst h; rfl
  | addScopeClicked rowCount =>
    simp only [runEvent, addScopeClicked] at h
    split at h
    · exact Option.noConfusion h
    · simp only [Option.some.injEq] at h; subst h; rfl
  | deleteScopeClicked indexList =>
    simp only [runEvent, Option.some.injEq] at h; subst h; rfl
  | saveScopeClicked => simp only [runEvent, Option.some.injEq] at h; subst h; rfl
  | endorseButtonClicked =>
    simp only [runEvent, endorseButtonClicked] at h
    split at h
    · exact Option.noConfusion h
    · simp only [Option.some.injEq] at h; subst h; rfl
  | removeChatDialog chatroomName =>
    simp only [runEvent, removeChatDialog] at h
    split at h
    · simp only [Option.some.injEq] at h; subst h; rfl
    · exact Option.noConfusion h

/-- The constructor returns when the default identity has a last component. -/
theorem construct_returns (E : Env) (ui0 : Ui) (last : String)
    (h : E.getDefaultIdentity.get (-1) = some last) :
    ∃ p : ContactPanel, ContactPanel.construct E ui0 = some p := by
  simp only [ContactPanel.construct, h]
  exact ⟨_, rfl⟩

/-- The constructor leaves the panel listening on the prefix of its default identity, and
on nothing else. -/
theorem construct_listener (E : Env) (ui0 : Ui) (p : ContactPanel)
    (h : ContactPanel.construct E ui0 = some p) :
    p.m_inviteListenPrefix =
        E.nameOfUri "/ndn/broadcast/chronos/invitation" ++ p.m_defaultIdentity ∧
      p.m_handler.interestFilters = [p.m_inviteListenPrefix] := by
  simp only [ContactPanel.construct] at h
  split at h
  · exact Option.noConfusion h
  · simp only [Option.some.injEq] at h
    subst h
    simp [collectEndorsement, collectEndorsement_loop_eq, setInvitationListener, setLocalPrefix,
      Wrapper.setInterestFilter, Wrapper.sendInterest, setKeychain, refreshContactList,
      ContactPanel.fresh]

/-- When the only Interest filter is the one of the current listen prefix,
`updateDefaultIdentity` clears it and leaves the panel listening on the prefix of the new
default identity, and on nothing else. -/
theorem updateDefaultIdentity_listener (E : Env) (p : ContactPanel) (identity nickName : String)
    (hfilters : p.m_handler.interestFilters = [p.m_inviteListenPrefix]) :
    (updateDefaultIdentity E p identity nickName).m_defaultIdentity = E.nameOfUri identity ∧
    (updateDefaultIdentity E p identity nickName).m_inviteListenPrefix =
      E.nameOfUri "/ndn/broadcast/chronos/invitation" ++ E.nameOfUri identity ∧
    (p.m_handler.clearInterestFilter p.m_inviteListenPrefix).interestFilters = [] ∧
    (updateDefaultIdentity E p identity nickName).m_handler.interestFilters =
      ((p.m_handler.clearInterestFilter p.m_inviteListenPrefix).setInterestFilter
        (E.nameOfUri "/ndn/broadcast/chronos/invitation" ++ E.nameOfUri identity)).interestFilters ∧
    (updateDefaultIdentity E p identity nickName).m_handler.interestFilters =
      [(updateDefaultIdentity E p identity nickName).m_inviteListenPrefix] := by
  have hclear : (p.m_handler.clearInterestFilter p.m_inviteListenPrefix).interestFilters = [] := by
    simp [Wrapper.clearInterestFilter, hfilters]
  refine ⟨rfl, rfl, hclear, ?_, ?_⟩
  · simp [updateDefaultIdentity, collectEndorsement, collectEndorsement_loop_eq,
      setInvitationListener]
  · simp [updateDefaultIdentity, collectEndorsement, collectEndorsement_loop_eq,
      setInvitationListener, Wrapper.setInterestFilter, hclear]

/-- Claim C10: in every state of the panel, from the one the constructor leaves on,
`m_inviteListenPrefix` is `/ndn/broadcast/chronos/invitation` followed by the components of
`m_defaultIdentity`, and the only Interest filter registered is the one for that prefix.  In
particular `updateDefaultIdentity(identity, nickName)` clears the filter of the previous
listen prefix, which leaves no filter, and registers the filter of the new prefix, built
from the new default identity. -/
theorem listenPrefix_tracks_identity (E : Env) (p : ContactPanel) (hreach : Reachable E p) :
    (p.m_inviteListenPrefix =
        E.nameOfUri "/ndn/broadcast/chronos/invitation" ++ p.m_defaultIdentity ∧
      p.m_handler.interestFilters = [p.m_inviteListenPrefix]) ∧
    ∀ identity nickName : String,
      (updateDefaultIdentity E p identity nickName).m_defaultIdentity = E.nameOfUri identity ∧
      (updateDefaultIdentity E p identity nickName).m_inviteListenPrefix =
        E.nameOfUri "/ndn/broadcast/chronos/invitation" ++
          (updateDefaultIdentity E p identity nickName).m_defaultIdentity ∧
      (p.m_handler.clearInterestFilter p.m_inviteListenPrefix).interestFilters = [] ∧
      (updateDefaultIdentity E p identity nickName).m_handler.interestFilters =
        ((p.m_handler.clearInterestFilter p.m_inviteListenPrefix).setInterestFilter
          (updateDefaultIdentity E p identity nickName).m_inviteListenPrefix).interestFilters ∧
      (updateDefaultIdentity E p identity nickName).m_handler.interestFilters =
        [(updateDefaultIdentity E p identity nickName).m_inviteListenPrefix] := by
  have hinv : p.m_inviteListenPrefix =
        E.nameOfUri "/ndn/broadcast/chronos/invitation" ++ p.m_defaultIdentity ∧
      p.m_handler.interestFilters = [p.m_inviteListenPrefix] := by
    induction hreach with
    | construct ui0 p hc => exact construct_listener E ui0 p hc
    | run E1 p e p1 hE _ hrun ih =>
      by_cases hupd : ∃ identity nickName : String,
          e = Event.updateDefaultIdentity identity nickName
      · obtain ⟨identity, nickName, rfl⟩ := hupd
        simp only [runEvent, Option.some.injEq] at hrun
        subst hrun
        obtain ⟨h1, h2, _, _, h5⟩ := updateDefaultIdentity_listener E1 p identity nickName ih.2
        rw [hE] at h1 h2
        exact ⟨by rw [h2, h1], h5⟩
      · have hframe := runEvent_listenerState E1 p p1 e
          (fun identity nickName heq => hupd ⟨identity, nickName, heq⟩) hrun
        simp only [listenerState, Prod.mk.injEq] at hframe
        obtain ⟨h1, h2, h3⟩ := hframe
        rw [h1, h2, h3]
        exact ih
  refine ⟨hinv, fun identity nickName => ?_⟩
  obtain ⟨h1, h2, h3, h4, h5⟩ := updateDefaultIdentity_listener E p identity nickName hinv.2
  exact ⟨h1, by rw [h2, h1], h3, by rw [h4, h2], h5⟩

/-- The constructor returns in the example environment. -/
theorem constructedPanel_eq :
    ContactPanel.construct exampleEnv exampleUi = some constructedPanel := by
  obtain ⟨p, hp⟩ := construct_returns exampleEnv exampleUi "carol" (by decide)
  simp only [constructedPanel, hp, Option.getD_some]

/-- The theorem `listenPrefix_tracks_identity` on the panel that the constructor leaves in
the example environment, whose default identity is `/ndn/ucla/carol`. -/
theorem listenPrefix_tracks_identity_witness :
    Reachable exampleEnv constructedPanel ∧
    constructedPanel.m_inviteListenPrefix =
      exampleEnv.nameOfUri "/ndn/broadcast/chronos/invitation"
        ++ constructedPanel.m_defaultIdentity ∧
    constructedPanel.m_handler.interestFilters = [constructedPanel.m_inviteListenPrefix] :=
  ⟨Reachable.construct exampleUi constructedPanel constructedPanel_eq,
    (listenPrefix_tracks_identity exampleEnv constructedPanel
      (Reachable.construct exampleUi constructedPanel constructedPanel_eq)).1⟩

/-! ## Opening and closing a chatroom changes one key of the map -/

/-- After `erase`, the key is not in the map. -/
theorem ChatDialogs.find_erase_self (m : ChatDialogs) (key : Name) :
    (m.erase key).find key = none := by
  simp only [ChatDialogs.find, ChatDialogs.erase, List.find?_eq_none, List.mem_filter]
  intro e he
  simpa using he.2

/-- After `erase`, every other key is bound as before. -/
theorem ChatDialogs.find_erase_ne (m : ChatDialogs) (key other : Name) (hne : other ≠ key) :
    (m.erase key).find other = m.find other := by
  simp only [ChatDialogs.find, ChatDialogs.erase, List.find?_filter]
  congr 1
  funext e
  by_cases ho : e.1 = other
  · have hk : ¬ e.1 = key := fun h => hne (ho.symm.trans h)
    simp [ho, hk, hne]
  · simp [ho]

/-- Inserting under a key that is not in the map appends one entry and leaves every other
key bound as before. -/
theorem ChatDialogs.insert_absent (m : ChatDialogs) (key : Name) (dialog : ChatDialog)
    (habsent : m.find key = none) :
    m.insert key dialog = m ++ [(key, dialog)] ∧
    (m.insert key dialog).find key = some (key, dialog) ∧
    ∀ other : Name, other ≠ key → (m.insert key dialog).find other = m.find other := by
  have hins : m.insert key dialog = m ++ [(key, dialog)] := by
    simp only [ChatDialogs.insert, habsent]
  refine ⟨hins, ?_, ?_⟩
  · rw [hins]
    simp only [ChatDialogs.find] at habsent ⊢
    simp [List.find?_append, habsent]
  · intro other hne
    rw [hins]
    have hk : ¬ key = other := fun h => hne h.symm
    simp only [ChatDialogs.find]
    cases hfind : List.find? (fun e => decide (e.1 = other)) m with
    | some e => simp [List.find?_append, hfind]
    | none => simp [List.find?_append, hfind, hk]

/-- Inserting under a key that is in the map leaves the map as it was. -/
theorem ChatDialogs.insert_present (m : ChatDialogs) (key : Name) (dialog : ChatDialog)
    (hpresent : (m.find key).isSome = true) : m.insert key dialog = m := by
  unfold ChatDialogs.insert
  cases hfind : m.find key with
  | some e => rfl
  | none => simp [hfind] at hpresent

/-- Claim C11 at a failing input.  The chatroom `lunch` is not in the map of the example
panel and the contact manager of `exampleEnv` has no contact for `/ndn/ucla/mallory`.
`startChatroom2` for an invitation from that namespace dereferences the null pointer that
`getContact` gives before it reaches `m_chatDialogs.insert`: the call does not return and the
key is not added, where the claim has `startChatroom2` add the key of a name not yet in the
map. -/
theorem startChatroom2_unknown_inviter :
    examplePanel.m_chatDialogs.find
        (exampleEnv.nameOfUri "/ndn/broadcast/chronos" ++ (exampleInvitation mallory).chatroom)
      = none ∧
    startChatroom2 exampleEnv examplePanel (exampleInvitation mallory)
      (exampleIdentityCertificate mallory) = none ∧
    ¬ ∃ p1 : ContactPanel,
        startChatroom2 exampleEnv examplePanel (exampleInvitation mallory)
          (exampleIdentityCertificate mallory) = some p1 ∧
        (p1.m_chatDialogs.find
          (exampleEnv.nameOfUri "/ndn/broadcast/chronos"
            ++ (exampleInvitation mallory).chatroom)).isSome = true := by
  have hnone : startChatroom2 exampleEnv examplePanel (exampleInvitation mallory)
      (exampleIdentityCertificate mallory) = none := by decide
  refine ⟨by decide, hnone, ?_⟩
  rintro ⟨p1, h, _⟩
  rw [hnone] at h
  exact Option.noConfusion h

/-- What the three functions do to the map where they return.  For a name that is a key of
`m_chatDialogs`, `removeChatDialog` returns, the map no longer has that key and every other
key is bound as before.  `startChatroom`, and `startChatroom2` where `getContact` gives a
contact for the inviter, change the map by one `insert`: for a name not yet in the map the
map gains exactly one entry, under that name, and every other key is bound as before; for a
name already in the map the map is left as it was. -/
theorem chatDialogs_change_one_key (E : Env) (p : ContactPanel) :
    (∀ chatroomName : Name, (p.m_chatDialogs.find chatroomName).isSome = true →
      ∃ p1 : ContactPanel, removeChatDialog p chatroomName = some p1 ∧
        p1.m_chatDialogs.find chatroomName = none ∧
        ∀ other : Name, other ≠ chatroomName →
          p1.m_chatDialogs.find other = p.m_chatDialogs.find other) ∧
    (∀ (chatroom invitee : String) (isIntroducer : Bool),
      (p.m_chatDialogs.find (E.nameOfUri (cString chatroom)) = none →
        ∃ dialog : ChatDialog,
          (startChatroom E p chatroom invitee isIntroducer).m_chatDialogs
            = p.m_chatDialogs ++ [(E.nameOfUri (cString chatroom), dialog)] ∧
          (startChatroom E p chatroom invitee isIntroducer).m_chatDialogs.find
            (E.nameOfUri (cString chatroom))
              = some (E.nameOfUri (cString chatroom), dialog) ∧
          ∀ other : Name, other ≠ E.nameOfUri (cString chatroom) →
            (startChatroom E p chatroom invitee isIntroducer).m_chatDialogs.find other
              = p.m_chatDialogs.find other) ∧
      ((p.m_chatDialogs.find (E.nameOfUri (cString chatroom))).isSome = true →
        (startChatroom E p chatroom invitee isIntroducer).m_chatDialogs = p.m_chatDialogs)) ∧
    (∀ (invitation : ChronosInvitation) (certificate : IdentityCertificate)
        (inviterItem : ContactItem),
      E.getContact invitation.inviterNameSpace = some inviterItem →
      ∃ p1 : ContactPanel, startChatroom2 E p invitation certificate = some p1 ∧
        (p.m_chatDialogs.find (E.nameOfUri "/ndn/broadcast/chronos" ++ invitation.chatroom)
            = none →
          ∃ dialog : ChatDialog,
            p1.m_chatDialogs = p.m_chatDialogs ++
              [(E.nameOfUri "/ndn/broadcast/chronos" ++ invitation.chatroom, dialog)] ∧
            p1.m_chatDialogs.find (E.nameOfUri "/ndn/broadcast/chronos" ++ invitation.chatroom)
              = some (E.nameOfUri "/ndn/broadcast/chronos" ++ invitation.chatroom, dialog) ∧
            ∀ other : Name, other ≠ E.nameOfUri "/ndn/broadcast/chronos" ++ invitation.chatroom →
              p1.m_chatDialogs.find other = p.m_chatDialogs.find other) ∧
        ((p.m_chatDialogs.find
            (E.nameOfUri "/ndn/broadcast/chronos" ++ invitation.chatroom)).isSome = true →
          p1.m_chatDialogs = p.m_chatDialogs)) := by
  refine ⟨?_, ?_, ?_⟩
  · intro chatroomName hkey
    unfold removeChatDialog
    cases hfind : p.m_chatDialogs.find chatroomName with
    | none => simp [hfind] at hkey
    | some e =>
      exact ⟨_, rfl, ChatDialogs.find_erase_self _ _,
        fun other hne => ChatDialogs.find_erase_ne _ _ other hne⟩
  · intro chatroom invitee isIntroducer
    constructor
    · intro habsent
      obtain ⟨h1, h2, h3⟩ := ChatDialogs.insert_absent p.m_chatDialogs
        (E.nameOfUri (cString chatroom))
        { chatroomName := E.nameOfUri (cString chatroom), localPrefix := p.m_localPrefix,
          defaultIdentity := p.m_defaultIdentity, nickName := p.m_nickName, trial := none,
          chatDataRules := [], trustAnchors := [],
          sentInvitations := [(E.getContact (E.nameOfUri (cString invitee)), isIntroducer)],
          visible := true } habsent
      exact ⟨_, h1, h2, h3⟩
    · intro hpresent
      exact ChatDialogs.insert_present _ _ _ hpresent
  · intro invitation certificate inviterItem hknown
    simp only [startChatroom2, hknown]
    refine ⟨_, rfl, ?_, ?_⟩
    · intro habsent
      obtain ⟨h1, h2, h3⟩ := ChatDialogs.insert_absent p.m_chatDialogs
        (E.nameOfUri "/ndn/broadcast/chronos" ++ invitation.chatroom)
        { chatroomName := E.nameOfUri "/ndn/broadcast/chronos" ++ invitation.chatroom,
          localPrefix := p.m_localPrefix, defaultIdentity := p.m_defaultIdentity,
          nickName := p.m_nickName, trial := some true,
          chatDataRules := [(invitation.inviterPrefix, certificate, true)],
          trustAnchors := [inviterItem.m_selfEndorseCertificate],
          sentInvitations := [], visible := true } habsent
      exact ⟨_, h1, h2, h3⟩
    · intro hpresent
      exact ChatDialogs.insert_present _ _ _ hpresent

/-- The lemma `chatDialogs_change_one_key` on the example panel with the chatroom `lunch`
open: closing `lunch` empties the map, opening `lunch` again leaves the map as it is, and an
invitation of `alice` to the chatroom `lunch` of `/ndn/broadcast/chronos`, which is not in
the map, adds that one key. -/
theorem chatDialogs_change_one_key_witness :
    ((exampleChatPanel.m_chatDialogs.find ["lunch"]).isSome = true ∧
      ∃ p1 : ContactPanel, removeChatDialog exampleChatPanel ["lunch"] = some p1 ∧
        p1.m_chatDialogs.find ["lunch"] = none) ∧
    (startChatroom exampleEnv exampleChatPanel "lunch" "alice" true).m_chatDialogs
      = exampleChatPanel.m_chatDialogs ∧
    (exampleEnv.getContact (exampleInvitation alice.m_nameSpace).inviterNameSpace = some alice ∧
      exampleChatPanel.m_chatDialogs.find ["ndn", "broadcast", "chronos", "lunch"] = none ∧
      ∃ p1 : ContactPanel,
        startChatroom2 exampleEnv exampleChatPanel (exampleInvitation alice.m_nameSpace)
          (exampleIdentityCertificate alice.m_nameSpace) = some p1 ∧
        ∃ dialog : ChatDialog,
          p1.m_chatDialogs = exampleChatPanel.m_chatDialogs ++
            [(["ndn", "broadcast", "chronos", "lunch"], dialog)]) :=
  ⟨⟨by decide,
      match (chatDialogs_change_one_key exampleEnv exampleChatPanel).1 ["lunch"] (by decide) with
      | ⟨p1, h1, h2, _⟩ => ⟨p1, h1, h2⟩⟩,
    ((chatDialogs_change_one_key exampleEnv exampleChatPanel).2.1 "lunch" "alice" true).2
      (by decide),
    ⟨by decide, by decide,
      match (chatDialogs_change_one_key exampleEnv exampleChatPanel).2.2
          (exampleInvitation alice.m_nameSpace) (exampleIdentityCertificate alice.m_nameSpace)
          alice (by decide) with
      | ⟨p1, h1, h2, _⟩ =>
        match h2 (by decide) with
        | ⟨dialog, h3, _, _⟩ => ⟨p1, h1, dialog, h3⟩⟩⟩

/-! ## An invitation is shown whoever the inviter is -/

/-- The loop of `popChatInvitation` keeps the alias it has when no contact has the
inviter's namespace. -/
theorem popChatInvitation_loop_no_match (inviterNameSpace : Name)
    (contactList : List ContactItem) (theAlias : String)
    (hnone : ∀ c ∈ contactList, c.m_nameSpace ≠ inviterNameSpace) :
    (popChatInvitation.loop inviterNameSpace contactList theAlias).2 = theAlias := by
  induction contactList generalizing theAlias with
  | nil => rfl
  | cons c rest ih =>
    have hc : c.m_nameSpace ≠ inviterNameSpace := hnone c (List.mem_cons_self _ _)
    simp only [popChatInvitation.loop, hc, if_false]
    exact ih theAlias (fun d hd => hnone d (List.mem_cons_of_mem _ hd))

/-- The loop of `popChatInvitation` on a list in two parts: the second part is scanned
with the alias that the first part leaves. -/
theorem popChatInvitation_loop_append (inviterNameSpace : Name)
    (front back : List ContactItem) (theAlias : String) :
    popChatInvitation.loop inviterNameSpace (front ++ back) theAlias =
      popChatInvitation.loop inviterNameSpace back
        (popChatInvitation.loop inviterNameSpace front theAlias).2 := by
  induction front generalizing theAlias with
  | nil => rfl
  | cons c rest ih =>
    rw [List.cons_append]
    simp only [popChatInvitation.loop]
    exact ih _

/-- Claim C12: for every contact list, invitation, inviter namespace and certificate, the
scan of `popChatInvitation` ends with the iterator at the end of `m_contactList`, so the
guard `it != m_contactList.end()` is false and the function goes on to `setInvitation` and
to `emit newInvitationReady`: the dialog receives the invitation and the certificate, the
signal is emitted once, and the panel is not left as it was.  The alias passed is the empty
string when no contact has the inviter's namespace, and otherwise the alias of the last
contact of the list that has it. -/
theorem popChatInvitation_never_suppresses (p : ContactPanel) (invitation : ChronosInvitation)
    (inviterNameSpace : Name) (certificate : IdentityCertificate) :
    (popChatInvitation.loop inviterNameSpace p.m_contactList "").1 = [] ∧
    (popChatInvitation p invitation inviterNameSpace certificate).m_invitationDialog.invitation
      = some ((popChatInvitation.loop inviterNameSpace p.m_contactList "").2,
          invitation, certificate) ∧
    (popChatInvitation p invitation inviterNameSpace certificate).newInvitationReady
      = p.newInvitationReady + 1 ∧
    popChatInvitation p invitation inviterNameSpace certificate ≠ p ∧
    ((∀ c ∈ p.m_contactList, c.m_nameSpace ≠ inviterNameSpace) →
      (popChatInvitation.loop inviterNameSpace p.m_contactList "").2 = "") ∧
    (∀ (front : List ContactItem) (c : ContactItem) (back : List ContactItem),
      p.m_contactList = front ++ c :: back → c.m_nameSpace = inviterNameSpace →
      (∀ d ∈ back, d.m_nameSpace ≠ inviterNameSpace) →
      (popChatInvitation.loop inviterNameSpace p.m_contactList "").2 = c.m_alias) := by
  refine ⟨popChatInvitation_loop_fst _ _ _, ?_, ?_, ?_, ?_, ?_⟩
  · rw [popChatInvitation_eq]
  · rw [popChatInvitation_eq]
  · intro heq
    have hcount := congrArg ContactPanel.newInvitationReady heq
    rw [popChatInvitation_eq] at hcount
    simp at hcount
  · exact popChatInvitation_loop_no_match _ _ _
  · intro front c back hlist hc hback
    rw [hlist, popChatInvitation_loop_append]
    simp only [popChatInvitation.loop, hc, if_true]
    exact popChatInvitation_loop_no_match _ _ _ hback

/-- The theorem `popChatInvitation_never_suppresses` on the example panel: an invitation
from `/ndn/ucla/mallory`, who is not a contact, is shown with an empty alias, and an
invitation from `bob`, the last contact of the list, with the alias `Bob`. -/
theorem popChatInvitation_never_suppresses_witness :
    (popChatInvitation examplePanel (exampleInvitation mallory) mallory
        (exampleIdentityCertificate mallory)).m_invitationDialog.invitation
      = some ("", exampleInvitation mallory, exampleIdentityCertificate mallory) ∧
    (popChatInvitation.loop bob.m_nameSpace examplePanel.m_contactList "").2 = "Bob" :=
  ⟨by
      have h := popChatInvitation_never_suppresses examplePanel (exampleInvitation mallory)
        mallory (exampleIdentityCertificate mallory)
      rw [h.2.1, h.2.2.2.2.1 (by decide)],
    (popChatInvitation_never_suppresses examplePanel (exampleInvitation bob.m_nameSpace)
      bob.m_nameSpace (exampleIdentityCertificate bob.m_nameSpace)).2.2.2.2.2
      [alice] bob [] rfl rfl (by decide)⟩

/-! ## The local prefix request does not tell unverified Data from verified Data -/

/-- Claim C13: the closure that `setLocalPrefix` sends with its Interest has
`onLocalPrefixVerified` both as its verified callback and as its unverified callback.  So
when the request completes with a Data packet, the panel that results is the same whether
the signature of the Data verified or not, whatever the random source gives, and its
`m_localPrefix` is the name built from the content of that Data. -/
theorem localPrefix_unverified_as_verified (E : Env) (p : ContactPanel) :
    (setLocalPrefix E p).m_handler.sentInterests =
      p.m_handler.sentInterests ++
        [(({ name := E.nameOfUri "/local/ndn/prefix",
             childSelector := some ChildSelector.childRight,
             interestLifetime := none } : Interest),
          ({ dataCallback := DataCallback.onLocalPrefixVerified,
             timeoutCallback := TimeoutCallback.onLocalPrefixTimeout,
             unverifiedCallback := DataCallback.onLocalPrefixVerified } : Closure))] ∧
    ∀ (interest : Interest) (closure : Closure),
      (interest, closure) ∈ (setLocalPrefix E p).m_handler.sentInterests →
      (interest, closure) ∉ p.m_handler.sentInterests →
      closure.unverifiedCallback = DataCallback.onLocalPrefixVerified ∧
      closure.unverifiedCallback = closure.dataCallback ∧
      ∀ (rng1 rng2 : Nat → Nat) (q : ContactPanel) (data : Data),
        closure.complete E rng1 q interest (Outcome.verified data)
          = some (onLocalPrefixVerified E rng1 q data) ∧
        closure.complete E rng2 q interest (Outcome.unverified data)
          = closure.complete E rng1 q interest (Outcome.verified data) ∧
        ∃ q1 q2 : ContactPanel,
          closure.complete E rng1 q interest (Outcome.verified data) = some q1 ∧
          closure.complete E rng2 q interest (Outcome.unverified data) = some q2 ∧
          q2.m_localPrefix = q1.m_localPrefix ∧
          q1.m_localPrefix = E.nameOfUri (E.trimmed data.content) := by
  have hsent : (setLocalPrefix E p).m_handler.sentInterests =
      p.m_handler.sentInterests ++
        [(({ name := E.nameOfUri "/local/ndn/prefix",
             childSelector := some ChildSelector.childRight,
             interestLifetime := none } : Interest),
          ({ dataCallback := DataCallback.onLocalPrefixVerified,
             timeoutCallback := TimeoutCallback.onLocalPrefixTimeout,
             unverifiedCallback := DataCallback.onLocalPrefixVerified } : Closure))] := rfl
  refine ⟨hsent, ?_⟩
  intro interest closure hmem hnew
  rw [hsent, List.mem_append] at hmem
  rcases hmem with hold | hlast
  · exact absurd hold hnew
  · simp only [List.mem_singleton, Prod.mk.injEq] at hlast
    obtain ⟨_, hclosure⟩ := hlast
    subst hclosure
    refine ⟨rfl, rfl, ?_⟩
    intro rng1 rng2 q data
    exact ⟨rfl, rfl, _, _, rfl, rfl, rfl, rfl⟩

/-- The theorem `localPrefix_unverified_as_verified` on the example panel: Data with the
content `/ndn/ucla` that failed verification sets the local prefix as verified Data does. -/
theorem localPrefix_unverified_as_verified_witness :
    Closure.complete exampleEnv (fun _ => 0) examplePanel
        { dataCallback := DataCallback.onLocalPrefixVerified,
          timeoutCallback := TimeoutCallback.onLocalPrefixTimeout,
          unverifiedCallback := DataCallback.onLocalPrefixVerified }
        { name := ["local", "ndn", "prefix"], childSelector := some ChildSelector.childRight,
          interestLifetime := none }
        (Outcome.unverified { name := ["local", "ndn", "prefix"], content := "/ndn/ucla" })
      = Closure.complete exampleEnv (fun i => i) examplePanel
        { dataCallback := DataCallback.onLocalPrefixVerified,
          timeoutCallback := TimeoutCallback.onLocalPrefixTimeout,
          unverifiedCallback := DataCallback.onLocalPrefixVerified }
        { name := ["local", "ndn", "prefix"], childSelector := some ChildSelector.childRight,
          interestLifetime := none }
        (Outcome.verified { name := ["local", "ndn", "prefix"], content := "/ndn/ucla" }) :=
  (((localPrefix_unverified_as_verified exampleEnv examplePanel).2
    { name := ["local", "ndn", "prefix"], childSelector := some ChildSelector.childRight,
      interestLifetime := none }
    { dataCallback := DataCallback.onLocalPrefixVerified,
      timeoutCallback := TimeoutCallback.onLocalPrefixTimeout,
      unverifiedCallback := DataCallback.onLocalPrefixVerified }
    (by decide) (by decide)).2.2 (fun i => i) (fun _ => 0) examplePanel
    { name := ["local", "ndn", "prefix"], content := "/ndn/ucla" }).2.1

/-! ## Looking up the selected contact -/

/-- The scan of `updateSelection` from index `i` stops at an index between `i` and the size
of the list; no contact it passed has the alias; and when it stops before the end, the
contact there has the alias. -/
theorem updateSelection_loop_spec (aliasText : String) (contactList : List ContactItem)
    (i : Nat) (hi : i ≤ contactList.length) :
    i ≤ updateSelection.loop aliasText contactList i ∧
    updateSelection.loop aliasText contactList i ≤ contactList.length ∧
    (∀ (j : Nat) (c : ContactItem), i ≤ j → j < updateSelection.loop aliasText contactList i →
      contactList[j]? = some c → c.m_alias ≠ aliasText) ∧
    (updateSelection.loop aliasText contactList i < contactList.length →
      ∃ c : ContactItem,
        contactList[updateSelection.loop aliasText contactList i]? = some c ∧
        c.m_alias = aliasText) := by
  generalize hk : contactList.length - i = k
  induction k generalizing i with
  | zero =>
    have hlen : ¬ i < contactList.length := by omega
    unfold updateSelection.loop
    simp only [hlen, dite_false]
    refine ⟨Nat.le_refl _, hi, ?_, ?_⟩
    · intro j c h1 h2
      omega
    · intro h
      exact h.elim
  | succ k ih =>
    have hlt : i < contactList.length := by omega
    unfold updateSelection.loop
    simp only [hlt, dite_true]
    by_cases hmatch : aliasText = contactList[i].m_alias
    · simp only [hmatch, if_true]
      refine ⟨Nat.le_refl _, hi, ?_, ?_⟩
      · intro j c h1 h2
        omega
      · intro _
        exact ⟨contactList[i], List.getElem?_eq_getElem hlt, rfl⟩
    · simp only [hmatch, if_false]
      obtain ⟨h1, h2, h3, h4⟩ := ih (i + 1) (by omega) (by omega)
      refine ⟨by omega, h2, ?_, h4⟩
      intro j c hij hj hc
      by_cases hji : j = i
      · subst hji
        rw [List.getElem?_eq_getElem hlt] at hc
        simp only [Option.some.injEq] at hc
        subst hc
        exact fun h => hmatch h.symm
      · exact h3 j c (by omega) hj hc

/-- When the index found is an index of `m_contactList`, `updateSelection` returns and
`m_currentSelectedContact` is the contact at that index. -/
theorem updateSelection_selects (E : Env) (p : ContactPanel) (first : Nat) (rest : List Nat)
    (contact : ContactItem)
    (hfound : p.m_contactList[updateSelection.loop (p.m_contactListModel.getD first "")
      p.m_contactList 0]? = some contact) :
    ∃ p1 : ContactPanel, updateSelection E p (first :: rest) = some p1 ∧
      p1.m_currentSelectedContact = some contact := by
  simp only [updateSelection, hfound]
  refine ⟨_, rfl, ?_⟩
  split <;> rfl

/-- Claim C14: let the selection be non-empty and let `text` be the display text of its
first index.  When some contact of `m_contactList` has the alias `text`, the scan of
`updateSelection` stops at an index below the size of the list, the contact there is the
first contact of the list with that alias, and `updateSelection` returns with
`m_currentSelectedContact` set to it.  When no contact has the alias `text`, the scan stops
at the size of the list, `m_contactList[i]` is past the end, and `updateSelection` does not
return. -/
theorem updateSelection_lookup (E : Env) (p : ContactPanel) (first : Nat) (rest : List Nat) :
    ((∃ known ∈ p.m_contactList, known.m_alias = p.m_contactListModel.getD first "") →
      updateSelection.loop (p.m_contactListModel.getD first "") p.m_contactList 0
        < p.m_contactList.length ∧
      ∃ contact : ContactItem,
        p.m_contactList[updateSelection.loop (p.m_contactListModel.getD first "")
          p.m_contactList 0]? = some contact ∧
        contact.m_alias = p.m_contactListModel.getD first "" ∧
        (∀ (j : Nat) (c : ContactItem),
          j < updateSelection.loop (p.m_contactListModel.getD first "") p.m_contactList 0 →
          p.m_contactList[j]? = some c → c.m_alias ≠ p.m_contactListModel.getD first "") ∧
        ∃ p1 : ContactPanel, updateSelection E p (first :: rest) = some p1 ∧
          p1.m_currentSelectedContact = some contact) ∧
    ((∀ c ∈ p.m_contactList, c.m_alias ≠ p.m_contactListModel.getD first "") →
      updateSelection.loop (p.m_contactListModel.getD first "") p.m_contactList 0
        = p.m_contactList.length ∧
      p.m_contactList[updateSelection.loop (p.m_contactListModel.getD first "")
        p.m_contactList 0]? = none ∧
      updateSelection E p (first :: rest) = none) := by
  obtain ⟨_, hle, hbefore, hat⟩ :=
    updateSelection_loop_spec (p.m_contactListModel.getD first "") p.m_contactList 0
      (Nat.zero_le _)
  constructor
  · rintro ⟨known, hmem, halias⟩
    have hlt : updateSelection.loop (p.m_contactListModel.getD first "") p.m_contactList 0
        < p.m_contactList.length := by
      by_contra hge
      obtain ⟨j, hj, hget⟩ := List.getElem_of_mem hmem
      exact hbefore j known (Nat.zero_le _) (by omega)
        (by rw [List.getElem?_eq_getElem hj, hget]) halias
    obtain ⟨contact, hget, hcontact⟩ := hat hlt
    exact ⟨hlt, contact, hget, hcontact, fun j c hj hc => hbefore j c (Nat.zero_le _) hj hc,
      updateSelection_selects E p first rest contact hget⟩
  · intro hnone
    have heq : updateSelection.loop (p.m_contactListModel.getD first "") p.m_contactList 0
        = p.m_contactList.length := by
      by_contra hne
      obtain ⟨c, hget, hc⟩ := hat (by omega)
      exact hnone c (List.getElem?_mem hget) hc
    have hout : p.m_contactList[updateSelection.loop (p.m_contactListModel.getD first "")
        p.m_contactList 0]? = none := by
      rw [heq]
      exact List.getElem?_eq_none (Nat.le_refl _)
    refine ⟨heq, hout, ?_⟩
    simp only [updateSelection, hout]

/-- The theorem `updateSelection_lookup` on the example panel: selecting the row of `Bob`
ends the scan at an index of the contact list and selects a contact whose alias is `Bob`; on
the panel whose list shows `Zed`, selecting that row ends the scan at index 2, the size of
the contact list, and the call does not return. -/
theorem updateSelection_lookup_witness :
    ((∃ known ∈ examplePanel.m_contactList,
        known.m_alias = examplePanel.m_contactListModel.getD 1 "") ∧
      ∃ (contact : ContactItem) (p1 : ContactPanel),
        contact.m_alias = "Bob" ∧
        updateSelection exampleEnv examplePanel [1] = some p1 ∧
        p1.m_currentSelectedContact = some contact) ∧
    ((∀ c ∈ exampleStalePanel.m_contactList,
        c.m_alias ≠ exampleStalePanel.m_contactListModel.getD 0 "") ∧
      updateSelection.loop "Zed" exampleStalePanel.m_contactList 0 = 2 ∧
      updateSelection exampleEnv exampleStalePanel [0] = none) :=
  ⟨⟨⟨bob, by decide, by decide⟩,
      match (updateSelection_lookup exampleEnv examplePanel 1 []).1
          ⟨bob, by decide, by decide⟩ with
      | ⟨_, contact, _, halias, _, p1, hrun, hsel⟩ => ⟨contact, p1, halias, hrun, hsel⟩⟩,
    ⟨by decide,
      ((updateSelection_lookup exampleEnv exampleStalePanel 0 []).2 (by decide)).1,
      ((updateSelection_lookup exampleEnv exampleStalePanel 0 []).2 (by decide)).2.2⟩⟩

/-! ## The random chatroom name -/

/-- The alphabet has 62 characters, all of them ASCII letters or digits. -/
theorem chars_alphabet :
    chars.length = 62 ∧ chars.toList.length = 62 ∧
    ∀ c ∈ chars.toList, c.isAlphanum = true := by
  refine ⟨by decide, by decide, by decide⟩

/-- A draw from the distribution over the indices of the alphabet is an index of the
alphabet. -/
theorem uniformIntDistribution_chars (raw : Nat) :
    uniformIntDistribution 0 (chars.length - 1) raw ≤ 61 ∧
    uniformIntDistribution 0 (chars.length - 1) raw < chars.toList.length := by
  have hlen := chars_alphabet.1
  have hlen2 := chars_alphabet.2.1
  have hmod : raw % 62 < 62 := Nat.mod_lt _ (by omega)
  simp only [uniformIntDistribution, hlen, hlen2]
  omega

/-- The loop of `getRandomString` from iteration `i` appends one character of the alphabet
for each of the iterations `i` to 9, at the index drawn in that iteration. -/
theorem getRandomString_loop_data (rng : Nat → Nat) (i : Nat) (randStr : String)
    (hi : i ≤ 10) :
    (getRandomString.loop rng i randStr).data =
      randStr.data ++ (List.range' i (10 - i)).map (fun k =>
        chars.toList.getD (uniformIntDistribution 0 (chars.length - 1) (rng k)) 'q') := by
  generalize hk : 10 - i = k
  induction k generalizing i randStr with
  | zero =>
    have hlt : ¬ i < 10 := by omega
    unfold getRandomString.loop
    simp [hlt]
  | succ k ih =>
    have hlt : i < 10 := by omega
    unfold getRandomString.loop
    simp only [hlt, if_true]
    rw [ih (i + 1) _ (by omega) (by omega)]
    simp only [String.data_push, List.range'_succ, List.map_cons, List.append_assoc,
      List.singleton_append]

/-- The characters of the random string: for each of the ten iterations, the character of
the alphabet at the index drawn in that iteration. -/
theorem getRandomString_data (rng : Nat → Nat) :
    (getRandomString rng).toList =
      (List.range' 0 10).map (fun k =>
        chars.toList.getD (uniformIntDistribution 0 (chars.length - 1) (rng k)) 'q') := by
  have h := getRandomString_loop_data rng 0 "" (by omega)
  simpa [getRandomString, String.toList] using h

/-- Claim C15: whatever values the random source gives, `getRandomString` returns a string
of exactly 10 characters; the index drawn in each iteration lies between 0 and 61, within
the alphabet `chars` of 62 ASCII letters and digits; the character at each position of the
result is the character of the alphabet at the index drawn, so every character of the
result is a letter or a digit.  When a contact is selected, `openStartChatDialog` returns and
the chatroom it proposes is `/ndn/broadcast/chronos` followed by the component `chatroom-`
and that random string. -/
theorem getRandomString_alphanumeric (E : Env) (rng : Nat → Nat) (p : ContactPanel) :
    (getRandomString rng).length = 10 ∧
    (chars.length = 62 ∧ ∀ c ∈ chars.toList, c.isAlphanum = true) ∧
    (∀ i : Nat, uniformIntDistribution 0 (chars.length - 1) (rng i) ≤ 61) ∧
    (∀ k : Nat, k < 10 →
      (getRandomString rng).toList[k]?
        = chars.toList[uniformIntDistribution 0 (chars.length - 1) (rng k)]?) ∧
    (∀ c ∈ (getRandomString rng).toList, c ∈ chars.toList ∧ c.isAlphanum = true) ∧
    (∀ contact : ContactItem, p.m_currentSelectedContact = some contact →
      ∃ p1 : ContactPanel, openStartChatDialog E rng p = some p1 ∧
        p1.m_startChatDialog.invitee =
          some (E.toUri contact.m_nameSpace,
            E.toUri (E.nameOfUri "/ndn/broadcast/chronos"
              ++ ["chatroom-" ++ getRandomString rng]))) := by
  have hdata := getRandomString_data rng
  have hchar : ∀ k : Nat,
      chars.toList.getD (uniformIntDistribution 0 (chars.length - 1) (rng k)) 'q' ∈ chars.toList ∧
      some (chars.toList.getD (uniformIntDistribution 0 (chars.length - 1) (rng k)) 'q')
        = chars.toList[uniformIntDistribution 0 (chars.length - 1) (rng k)]? := by
    intro k
    have hlt := (uniformIntDistribution_chars (rng k)).2
    rw [List.getD_eq_getElem _ _ hlt, List.getElem?_eq_getElem hlt]
    exact ⟨List.getElem_mem _, rfl⟩
  have hmem : ∀ c ∈ (getRandomString rng).toList, c ∈ chars.toList := by
    intro c hc
    rw [hdata, List.mem_map] at hc
    obtain ⟨k, _, hk⟩ := hc
    rw [← hk]
    exact (hchar k).1
  refine ⟨?_, ⟨chars_alphabet.1, chars_alphabet.2.2⟩,
    fun i => (uniformIntDistribution_chars (rng i)).1, ?_,
    fun c hc => ⟨hmem c hc, chars_alphabet.2.2 c (hmem c hc)⟩, ?_⟩
  · have hlen : (getRandomString rng).toList.length = 10 := by
      rw [hdata]
      simp
    exact hlen
  · intro k hk
    rw [hdata, List.getElem?_map, List.getElem?_range' _ _ hk]
    simp only [Option.map_some', Nat.zero_add, Nat.one_mul]
    exact (hchar k).2
  · intro contact hsel
    simp only [openStartChatDialog, hsel]
    exact ⟨_, rfl, rfl⟩

/-- The theorem `getRandomString_alphanumeric` on the example panel, where `bob` is
selected, with a random source that gives `61 * i + 7` in iteration `i`. -/
theorem getRandomString_alphanumeric_witness :
    examplePanel.m_currentSelectedContact = some bob ∧
    (getRandomString (fun i => 61 * i + 7)).length = 10 ∧
    ∃ p1 : ContactPanel,
      openStartChatDialog exampleEnv (fun i => 61 * i + 7) examplePanel = some p1 ∧
      p1.m_startChatDialog.invitee =
        some (exampleEnv.toUri bob.m_nameSpace,
          exampleEnv.toUri (["ndn", "broadcast", "chronos"]
            ++ ["chatroom-" ++ getRandomString (fun i => 61 * i + 7)])) :=
  ⟨rfl,
    (getRandomString_alphanumeric exampleEnv (fun i => 61 * i + 7) examplePanel).1,
    (getRandomString_alphanumeric exampleEnv (fun i => 61 * i + 7) examplePanel).2.2.2.2.2
      bob rfl⟩

end ChronoChat
